import Mathlib

/-!
# boringproxy web UI handler (webui_handler.go)

A shallow embedding of the request router of `webui_handler.go`:
`handleWebUiRequest`, `handleTunnels`, `handleLogin` and `handleCreateTunnel`.

* The collaborators (`Auth`, `Database`, `TunnelManager`) are stateful objects
  reached through pointers; they are embedded as arbitrary state transformers
  over a world state `σ`, and every call the handler makes is appended to a
  call log.
* The `http.ResponseWriter` is embedded as the log of the operations the
  handler performs on it, with observation functions (`statusCode`,
  `bodyOf`, `cookiesOf`, `locationOf`) that read the response off the log.
* The types `Tunnel` and `BoringProxyConfig` and the helper `extractToken`
  are declared in other files of the package; they are parameters here.
-/

namespace BoringProxy

/-! ## Data model -/

/-- Go `url.Values`, a `map[string][]string`, as an association list (first
binding of a key wins). A key can be bound to the empty list. -/
abbrev Values := List (String × List String)

/-- The two-valued map read `vs, ok := v[k]`. -/
def Values.find (v : Values) (k : String) : Option (List String) :=
  List.lookup k v

/-- The one-valued map read `v[k]`: the zero value (nil slice) when absent. -/
def Values.index (v : Values) (k : String) : List String :=
  (List.lookup k v).getD []

/-- The fields of `http.Cookie` the handler sets; the others keep their zero value. -/
structure Cookie where
  Name : String
  Value : String
  Secure : Bool
  HttpOnly : Bool
  deriving DecidableEq, Repr

/-- The parts of `*http.Request` the handler reads. `Query` is the result of
`r.URL.Query()`; `Form` is the content of `r.Form` once `r.ParseForm()` has
run (every read of `r.Form` in the handler follows a `r.ParseForm()`). -/
structure Request where
  Method : String
  Path : String
  Query : Values
  Form : Values
  Cookies : List Cookie
  deriving DecidableEq, Repr

/-- A parsed `html/template` template, by its name and source text. -/
structure Template where
  Name : String
  Text : String
  deriving DecidableEq, Repr

/-- Go `IndexData`. -/
structure IndexData (Tunnel : Type) where
  Styles : String
  Tunnels : List (String × Tunnel)

/-- Go `ConfirmData`. -/
structure ConfirmData where
  Styles : String
  Message : String
  ConfirmUrl : String
  CancelUrl : String
  deriving DecidableEq, Repr

/-- Go `LoginTemplateData`. -/
structure LoginTemplateData where
  Styles : String
  deriving DecidableEq, Repr

/-- The `interface{}` argument of `Template.Execute`, as far as the handler uses it. -/
inductive TemplateData (Tunnel : Type) where
  | index (d : IndexData Tunnel)
  | confirm (d : ConfirmData)
  | login (d : LoginTemplateData)

/-- One operation performed on the `http.ResponseWriter`. `Write` stands for
`w.Write([]byte(s))`, `io.WriteString(w, s)` and `fmt.Fprintf(w, s)`;
`Redirect` for `http.Redirect(w, r, url, code)` and records `r.Method`. -/
inductive WriterOp (Tunnel : Type) where
  | WriteHeader (code : Nat)
  | Write (s : String)
  | Execute (t : Template) (d : TemplateData Tunnel)
  | SetCookie (c : Cookie)
  | Redirect (url : String) (code : Nat) (method : String)

/-- One call made by the handler to a collaborator or to `extractToken`.
`Login` is the launch `go h.auth.Login(email, h.config)`. -/
inductive Call (Config : Type) where
  | extractToken (name : String)
  | Authorized (token : String)
  | Verify (key : String)
  | Login (email : String) (config : Config)
  | GetTunnels
  | CreateTunnelForClient (domain clientName : String) (clientPort : Int)
  | DeleteTunnel (domain : String)
  deriving DecidableEq

/-- Go `*Auth`. A Go `error` is embedded as its `Error()` text. `Login` is only
ever launched in a goroutine, so the handler never applies it. -/
structure Auth (σ : Type) where
  Authorized : String → σ → Bool × σ
  Verify : String → σ → Except String String × σ

/-- Go `*Database`. -/
structure Database (σ Tunnel : Type) where
  GetTunnels : σ → List (String × Tunnel) × σ

/-- Go `*TunnelManager`. -/
structure TunnelManager (σ Tunnel : Type) where
  CreateTunnelForClient : String → String → Int → σ → Except String Tunnel × σ
  DeleteTunnel : String → σ → σ

/-- Go `WebUiHandler`. -/
structure WebUiHandler (σ Tunnel Config : Type) where
  config : Config
  db : Database σ Tunnel
  auth : Auth σ
  tunMan : TunnelManager σ Tunnel
  stylesText : String
  indexTemplate : Template
  confirmTemplate : Template
  loginTemplate : Template

/-- The state threaded through one handler invocation: the response writer
log, the call log, the lines printed on standard output, the collaborators'
world, and whether an index expression panicked. -/
structure Run (σ Tunnel Config : Type) where
  w : List (WriterOp Tunnel)
  calls : List (Call Config)
  stdout : List String
  world : σ
  panicked : Bool

variable {σ Tunnel Config : Type}

/-- The state in which the server hands a request to the handler. -/
def Run.start (world : σ) : Run σ Tunnel Config :=
  ⟨[], [], [], world, false⟩

/-- Append one operation to the response writer log. -/
def Run.emit (s : Run σ Tunnel Config) (op : WriterOp Tunnel) : Run σ Tunnel Config :=
  { s with w := s.w ++ [op] }

/-- Append one call to the call log. -/
def Run.log (s : Run σ Tunnel Config) (c : Call Config) : Run σ Tunnel Config :=
  { s with calls := s.calls ++ [c] }

/-- Replace the collaborators' world. -/
def Run.setWorld (s : Run σ Tunnel Config) (world : σ) : Run σ Tunnel Config :=
  { s with world := world }

/-- A run-time panic (index out of range): the handler stops there. -/
def Run.panic (s : Run σ Tunnel Config) : Run σ Tunnel Config :=
  { s with panicked := true }

/-- The statement `fmt.Println(...)`: one line on standard output. -/
def Run.println (s : Run σ Tunnel Config) (line : String) : Run σ Tunnel Config :=
  { s with stdout := s.stdout ++ [line] }

/-! ## Library functions used by the handler -/

/-- The value of a string of decimal digits, `none` if a byte is not a digit
(the loop `n = n*10 + int(ch - '0')` of `strconv`). -/
def digitsValue : List Char → Nat → Option Nat
  | [], acc => some acc
  | ch :: rest, acc =>
    if '0' ≤ ch ∧ ch ≤ '9' then digitsValue rest (acc * 10 + (ch.toNat - '0'.toNat))
    else none

/-- Go `strconv.Atoi` on a 64-bit platform: an optional sign, then at least one
decimal digit and nothing else, the value within the range of `int`. The error
is embedded as the text of the `Err` field of the `*NumError` returned. -/
def Atoi (s : String) : Except String Int :=
  let body : Bool × List Char :=
    match s.data with
    | '-' :: rest => (true, rest)
    | '+' :: rest => (false, rest)
    | cs => (false, cs)
  if body.2 = [] then .error "invalid syntax"
  else
    match digitsValue body.2 0 with
    | none => .error "invalid syntax"
    | some n =>
      let v : Int := if body.1 then -(n : Int) else (n : Int)
      if -(2 : Int) ^ 63 ≤ v ∧ v ≤ (2 : Int) ^ 63 - 1 then .ok v
      else .error "value out of range"

/-- The line `fmt.Println(domain, clientName, clientPort)` prints. -/
def printlnLine (domain clientName : String) (clientPort : Int) : String :=
  domain ++ " " ++ clientName ++ " " ++ toString clientPort ++ "\n"

/-- The value of a hexadecimal digit (`unhex` of `net/url`). -/
def unhex (c : Char) : Option Nat :=
  if '0' ≤ c ∧ c ≤ '9' then some (c.toNat - '0'.toNat)
  else if 'a' ≤ c ∧ c ≤ 'f' then some (c.toNat - 'a'.toNat + 10)
  else if 'A' ≤ c ∧ c ≤ 'F' then some (c.toNat - 'A'.toNat + 10)
  else none

/-- Go `url.QueryUnescape`: `+` becomes a space and `%XY` the byte of that
hexadecimal value; `none` is the escape error (a `%` not followed by two
hexadecimal digits). Strings are lists of characters here, so an escape of
0x80 or more stands for the character of that code. -/
def QueryUnescape : List Char → Option (List Char)
  | [] => some []
  | c :: rest =>
    if c = '%' then
      match rest with
      | a :: b :: tail =>
        match unhex a, unhex b with
        | some x, some y => (QueryUnescape tail).map (fun out => Char.ofNat (16 * x + y) :: out)
        | _, _ => none
      | _ => none
    else if c = '+' then (QueryUnescape rest).map (fun out => ' ' :: out)
    else (QueryUnescape rest).map (fun out => c :: out)

/-- Go `strings.Cut` with a one-byte separator: the text before and after the
first occurrence of `sep` (everything and nothing when it does not occur). -/
def cut (sep : Char) : List Char → List Char × List Char
  | [] => ([], [])
  | c :: rest =>
    if c = sep then ([], rest)
    else ((c :: (cut sep rest).1), (cut sep rest).2)

/-- The successive `&`-separated pieces the loop of `url.ParseQuery` cuts off
its input. -/
def splitAmp : List Char → List (List Char)
  | [] => [[]]
  | c :: rest =>
    if c = '&' then [] :: splitAmp rest
    else
      match splitAmp rest with
      | [] => [[c]]
      | piece :: pieces => (c :: piece) :: pieces

/-- The map update `m[key] = append(m[key], value)`. -/
def addValue : Values → String → String → Values
  | [], key, value => [(key, [value])]
  | (k, vs) :: rest, key, value =>
    if k = key then (k, vs ++ [value]) :: rest
    else (k, vs) :: addValue rest key value

/-- One turn of the loop of `url.ParseQuery`: a piece with a semicolon, an
empty piece, or one whose key or value does not unescape adds nothing;
otherwise key and value are split at the first `=` and unescaped. -/
def parsePair (m : Values) (piece : List Char) : Values :=
  if ';' ∈ piece then m
  else if piece = [] then m
  else
    match QueryUnescape (cut '=' piece).1 with
    | none => m
    | some key =>
      match QueryUnescape (cut '=' piece).2 with
      | none => m
      | some value => addValue m (String.mk key) (String.mk value)

/-- Go `url.ParseQuery`, the values it returns (its error is ignored by
`r.URL.Query()` and by the handler's `r.ParseForm()`). -/
def ParseQuery (query : String) : Values :=
  (splitAmp query.data).foldl parsePair []

/-- The request the server builds for the request line `method target` without
a body: the target is cut at the first `?` into path and raw query, and both
`r.URL.Query()` and the form of `r.ParseForm()` are the parsed raw query. The
path is taken as written (the paths used here hold no escape). -/
def requestOfTarget (method target : String) (cookies : List Cookie) : Request :=
  ⟨method, String.mk (cut '?' target.data).1,
   ParseQuery (String.mk (cut '?' target.data).2),
   ParseQuery (String.mk (cut '?' target.data).2), cookies⟩

/-! ## The handler -/

/-- Go `handleCreateTunnel`. -/
def handleCreateTunnel (h : WebUiHandler σ Tunnel Config) (r : Request)
    (s : Run σ Tunnel Config) : Run σ Tunnel Config :=
  if (r.Form.index "domain").length ≠ 1 then
    (s.emit (.WriteHeader 400)).emit (.Write "Invalid domain parameter")
  else
    match (r.Form.index "domain")[0]? with
    | none => s.panic
    | some domain =>
      if (r.Form.index "client-name").length ≠ 1 then
        (s.emit (.WriteHeader 400)).emit (.Write "Invalid client-name parameter")
      else
        match (r.Form.index "client-name")[0]? with
        | none => s.panic
        | some clientName =>
          if (r.Form.index "client-port").length ≠ 1 then
            (s.emit (.WriteHeader 400)).emit (.Write "Invalid client-port parameter")
          else
            match (r.Form.index "client-port")[0]? with
            | none => s.panic
            | some portText =>
              match Atoi portText with
              | .error _ =>
                (s.emit (.WriteHeader 400)).emit (.Write "Invalid client-port parameter")
              | .ok clientPort =>
                let s1 := s.println (printlnLine domain clientName clientPort)
                let res := h.tunMan.CreateTunnelForClient domain clientName clientPort s1.world
                let s2 := (s1.log (.CreateTunnelForClient domain clientName clientPort)).setWorld res.2
                match res.1 with
                | .error err => (s2.emit (.WriteHeader 400)).emit (.Write err)
                | .ok _ => s2.emit (.Redirect "/" 303 r.Method)

/-- Go `handleTunnels`. -/
def handleTunnels (h : WebUiHandler σ Tunnel Config) (r : Request)
    (s : Run σ Tunnel Config) : Run σ Tunnel Config :=
  if r.Method = "POST" then handleCreateTunnel h r s
  else (s.emit (.WriteHeader 405)).emit (.Write "Invalid method for /tunnels")

/-- Go `handleLogin`. -/
def handleLogin (h : WebUiHandler σ Tunnel Config) (r : Request)
    (s : Run σ Tunnel Config) : Run σ Tunnel Config :=
  if r.Method = "GET" then
    match r.Query.find "key" with
    | none =>
      (s.emit (.WriteHeader 400)).emit (.Write "Must provide key for verification")
    | some key =>
      match key[0]? with
      | none => s.panic
      | some key0 =>
        let res := h.auth.Verify key0 s.world
        let s1 := (s.log (.Verify key0)).setWorld res.2
        match res.1 with
        | .error _ => (s1.emit (.WriteHeader 400)).emit (.Write "Invalid key")
        | .ok token =>
          (s1.emit (.SetCookie ⟨"access_token", token, true, true⟩)).emit
            (.Redirect "/" 307 r.Method)
  else if r.Method = "POST" then
    match r.Form.find "email" with
    | none => (s.emit (.WriteHeader 400)).emit (.Write "Email required for login")
    | some toEmail =>
      match toEmail[0]? with
      | none => s.panic
      | some email =>
        (s.log (.Login email h.config)).emit (.Write "Check your email to finish logging in")
  else
    (s.emit (.WriteHeader 405)).emit (.Write "Invalid method for login")

/-- Go `handleWebUiRequest`. `extractToken` is the package function of that
name, defined outside `webui_handler.go`; it reads the request only. -/
def handleWebUiRequest (extractToken : String → Request → Except String String)
    (h : WebUiHandler σ Tunnel Config) (r : Request)
    (s : Run σ Tunnel Config) : Run σ Tunnel Config :=
  if r.Path = "/login" then handleLogin h r s
  else if r.Path = "/" then
    let s1 := s.log (.extractToken "access_token")
    match extractToken "access_token" r with
    | .error _ =>
      (s1.emit (.WriteHeader 401)).emit (.Execute h.loginTemplate (.login ⟨h.stylesText⟩))
    | .ok token =>
      let ok := h.auth.Authorized token s1.world
      let s2 := (s1.log (.Authorized token)).setWorld ok.2
      if !ok.1 then (s2.emit (.WriteHeader 403)).emit (.Write "Not authorized")
      else
        let tunnels := h.db.GetTunnels s2.world
        let s3 := (s2.log .GetTunnels).setWorld tunnels.2
        s3.emit (.Execute h.indexTemplate (.index ⟨h.stylesText, tunnels.1⟩))
  else if r.Path = "/tunnels" then
    let s1 := s.log (.extractToken "access_token")
    match extractToken "access_token" r with
    | .error _ => (s1.emit (.WriteHeader 401)).emit (.Write "No token provided")
    | .ok token =>
      let ok := h.auth.Authorized token s1.world
      let s2 := (s1.log (.Authorized token)).setWorld ok.2
      if !ok.1 then (s2.emit (.WriteHeader 403)).emit (.Write "Not authorized")
      else handleTunnels h r s2
  else if r.Path = "/confirm-delete-tunnel" then
    if (r.Form.index "domain").length ≠ 1 then
      (s.emit (.WriteHeader 400)).emit (.Write "Invalid domain parameter")
    else
      match (r.Form.index "domain")[0]? with
      | none => s.panic
      | some domain =>
        s.emit (.Execute h.confirmTemplate (.confirm
          ⟨h.stylesText, "Are you sure you want to delete " ++ domain ++ "?",
           "/delete-tunnel?domain=" ++ domain, "/"⟩))
  else if r.Path = "/delete-tunnel" then
    let s1 := s.log (.extractToken "access_token")
    match extractToken "access_token" r with
    | .error _ => (s1.emit (.WriteHeader 401)).emit (.Write "No token provided")
    | .ok token =>
      let ok := h.auth.Authorized token s1.world
      let s2 := (s1.log (.Authorized token)).setWorld ok.2
      if !ok.1 then (s2.emit (.WriteHeader 403)).emit (.Write "Not authorized")
      else
        if (r.Form.index "domain").length ≠ 1 then
          (s2.emit (.WriteHeader 400)).emit (.Write "Invalid domain parameter")
        else
          match (r.Form.index "domain")[0]? with
          | none => s2.panic
          | some domain =>
            let s3 := (s2.log (.DeleteTunnel domain)).setWorld
              (h.tunMan.DeleteTunnel domain s2.world)
            s3.emit (.Redirect "/" 307 r.Method)
  else
    (s.emit (.WriteHeader 400)).emit (.Write "Invalid endpoint")

/-- One request served from a fresh response writer. -/
def serve (extractToken : String → Request → Except String String)
    (h : WebUiHandler σ Tunnel Config) (r : Request) (world : σ) : Run σ Tunnel Config :=
  handleWebUiRequest extractToken h r (Run.start world)

/-! ## Reading the response off the writer log -/

/-- The status code of the response: the code of the first `WriteHeader` or
`Redirect`, or 200 when the body is written first or nothing is written. -/
def statusCode : List (WriterOp Tunnel) → Nat
  | [] => 200
  | .WriteHeader code :: _ => code
  | .Redirect _ code _ :: _ => code
  | .Write _ :: _ => 200
  | .Execute _ _ :: _ => 200
  | .SetCookie _ :: rest => statusCode rest

/-- What the handler itself puts in the body. -/
inductive Chunk (Tunnel : Type) where
  | text (s : String)
  | rendered (t : Template) (d : TemplateData Tunnel)

/-- The body parts written by the handler, in order. -/
def bodyOf : List (WriterOp Tunnel) → List (Chunk Tunnel)
  | [] => []
  | .Write s :: rest => .text s :: bodyOf rest
  | .Execute t d :: rest => .rendered t d :: bodyOf rest
  | _ :: rest => bodyOf rest

/-- The cookies passed to `http.SetCookie`, in order. -/
def cookiesOf : List (WriterOp Tunnel) → List Cookie
  | [] => []
  | .SetCookie c :: rest => c :: cookiesOf rest
  | _ :: rest => cookiesOf rest

/-- The targets of the `http.Redirect` calls, in order. -/
def locationOf : List (WriterOp Tunnel) → List String
  | [] => []
  | .Redirect url _ _ :: rest => url :: locationOf rest
  | _ :: rest => locationOf rest

/-- Go `httpguts.IsTokenRune` on one byte: the bytes allowed in a cookie name
(digits, letters and the marks of codes 33, 35 to 39, 42, 43, 45, 46, 94, 95,
96, 124, 126). -/
def isTokenByte (c : Char) : Bool :=
  ('0' ≤ c ∧ c ≤ '9') ∨ ('a' ≤ c ∧ c ≤ 'z') ∨ ('A' ≤ c ∧ c ≤ 'Z') ∨
    c.toNat ∈ [33, 35, 36, 37, 38, 39, 42, 43, 45, 46, 94, 95, 96, 124, 126]

/-- Go `isCookieNameValid`: a non-empty name of token bytes. -/
def isCookieNameValid (name : String) : Bool :=
  name.data ≠ [] ∧ name.data.all isTokenByte

/-- Go `validCookieValueByte`: a printable ASCII byte other than the double
quote (34), the semicolon (59) and the backslash (92). A character outside
ASCII is made of bytes of 0x80 and more, none of them valid. -/
def validCookieValueByte (c : Char) : Bool :=
  0x20 ≤ c.toNat ∧ c.toNat < 0x7f ∧ c.toNat ≠ 34 ∧ c.toNat ≠ 59 ∧ c.toNat ≠ 92

/-- Go `sanitizeCookieValue`: the invalid bytes are dropped (`sanitizeOrWarn`,
whose warning goes to the process log), and a value left with a space or a
comma is wrapped in double quotes. -/
def sanitizeCookieValue (v : String) : String :=
  let kept := v.data.filter validCookieValueByte
  if kept = [] then ""
  else if ' ' ∈ kept ∨ ',' ∈ kept then "\"" ++ String.mk kept ++ "\""
  else String.mk kept

/-- Go `(*Cookie).String()` on the fields the handler sets: the text of the
`Set-Cookie` header, empty for an invalid name. -/
def cookieString (c : Cookie) : String :=
  if isCookieNameValid c.Name then
    c.Name ++ "=" ++ sanitizeCookieValue c.Value ++
      (if c.HttpOnly then "; HttpOnly" else "") ++ (if c.Secure then "; Secure" else "")
  else ""

/-- The `Set-Cookie` headers the response carries: `http.SetCookie` adds the
header `cookie.String()` unless that text is empty. -/
def setCookieHeaders : List (WriterOp Tunnel) → List String
  | [] => []
  | .SetCookie c :: rest =>
    if cookieString c = "" then setCookieHeaders rest
    else cookieString c :: setCookieHeaders rest
  | _ :: rest => setCookieHeaders rest

/-! ## Concrete collaborators for the worked examples -/

/-- Modelled from the spec: `extractToken`, whose source is outside
`webui_handler.go`; it returns the value of the cookie of the given name, and
an error when the request has no such cookie. -/
def cookieToken (name : String) (r : Request) : Except String String :=
  match r.Cookies.find? (fun c => c.Name == name) with
  | some c => .ok c.Value
  | none => .error "http: named cookie not present"

/-- A world for the examples: the tunnels as domain and client port. -/
abbrev DemoWorld := List (String × Int)

/-- An `Auth` accepting exactly the token `"good"` and verifying the key
`"k1"` into it. -/
def demoAuth : Auth DemoWorld :=
  ⟨fun token wd => (token == "good", wd),
   fun key wd => (if key = "k1" then .ok "good" else .error "unknown key", wd)⟩

/-- A tunnel manager over `DemoWorld`: creation fails on a taken domain. -/
def demoTunMan : TunnelManager DemoWorld Int :=
  ⟨fun domain _ port wd =>
     if (wd.lookup domain).isSome then (.error "Tunnel domain already exists", wd)
     else (.ok port, wd ++ [(domain, port)]),
   fun domain wd => wd.filter (fun p => p.1 != domain)⟩

/-- A handler over the example collaborators. -/
def demoHandler : WebUiHandler DemoWorld Int Unit :=
  ⟨(), ⟨fun wd => (wd, wd)⟩, demoAuth, demoTunMan, "body",
   ⟨"indexhtml", "index"⟩, ⟨"confirmhtml", "confirm"⟩, ⟨"loginhtml", "login"⟩⟩

/-- The session cookie accepted by `demoAuth`. -/
def goodCookie : Cookie := ⟨"access_token", "good", true, true⟩

/-- A session cookie `demoAuth` rejects. -/
def staleCookie : Cookie := ⟨"access_token", "stale", true, true⟩

/-- The world with the tunnel `a.example.com` in place. -/
def demoWorld : DemoWorld := [("a.example.com", 8080)]

/-- The request `GET /` with the given cookies. -/
def rootRequest (cookies : List Cookie) : Request :=
  ⟨"GET", "/", [], [], cookies⟩

/-- The request `POST /tunnels` with the given form and cookies. -/
def createRequest (form : Values) (cookies : List Cookie) : Request :=
  ⟨"POST", "/tunnels", [], form, cookies⟩

/-- The form `domain=a.example.com, client-name=foo, client-port=<port>`. -/
def createForm (port : String) : Values :=
  [("domain", ["a.example.com"]), ("client-name", ["foo"]), ("client-port", [port])]

/-- A request of the given method and path with `domain=a.example.com` in the query. -/
def domainRequest (method path : String) (cookies : List Cookie) : Request :=
  ⟨method, path, [("domain", ["a.example.com"])], [("domain", ["a.example.com"])], cookies⟩

/-- The request `GET /login` with the given query. -/
def loginRequest (query : Values) : Request :=
  ⟨"GET", "/login", query, query, []⟩

/-- The request `POST /login` with the given form. -/
def loginPost (form : Values) : Request :=
  ⟨"POST", "/login", [], form, []⟩

/-- An `Auth` verifying every key into the token `a;b`. -/
def semicolonAuth : Auth DemoWorld :=
  ⟨fun token wd => (token == "a;b", wd), fun _ wd => (.ok "a;b", wd)⟩

/-- The example handler over `semicolonAuth`. -/
def semicolonHandler : WebUiHandler DemoWorld Int Unit :=
  ⟨(), ⟨fun wd => (wd, wd)⟩, semicolonAuth, demoTunMan, "body",
   ⟨"indexhtml", "index"⟩, ⟨"confirmhtml", "confirm"⟩, ⟨"loginhtml", "login"⟩⟩

/-! ## Shared lemmas: what each branch of the router does -/

theorem handleCreateTunnel_calls (h : WebUiHandler σ Tunnel Config) (r : Request)
    (s : Run σ Tunnel Config) :
    (handleCreateTunnel h r s).calls = s.calls ∨
      ∃ d n k, (handleCreateTunnel h r s).calls =
        s.calls ++ [Call.CreateTunnelForClient d n k] := by
  unfold handleCreateTunnel
  repeat' split
  all_goals simp only [Run.emit, Run.log, Run.setWorld, Run.panic, Run.println]
  all_goals (try split)
  all_goals simp

theorem handleLogin_calls (h : WebUiHandler σ Tunnel Config) (r : Request)
    (s : Run σ Tunnel Config) :
    (handleLogin h r s).calls = s.calls ∨
      (∃ k, (handleLogin h r s).calls = s.calls ++ [Call.Verify k]) ∨
      ∃ e, (handleLogin h r s).calls = s.calls ++ [Call.Login e h.config] := by
  unfold handleLogin
  repeat' split
  all_goals simp only [Run.emit, Run.log, Run.setWorld, Run.panic, Run.println]
  all_goals (try split)
  all_goals simp

theorem serve_login (ext : String → Request → Except String String)
    (h : WebUiHandler σ Tunnel Config) (r : Request) (world : σ)
    (hp : r.Path = "/login") :
    serve ext h r world = handleLogin h r (Run.start world) := by
  simp [serve, handleWebUiRequest, hp]

theorem serve_root_noToken (ext : String → Request → Except String String)
    (h : WebUiHandler σ Tunnel Config) (r : Request) (world : σ) (e : String)
    (hp : r.Path = "/") (hx : ext "access_token" r = .error e) :
    serve ext h r world =
      ⟨[.WriteHeader 401, .Execute h.loginTemplate (.login ⟨h.stylesText⟩)],
       [.extractToken "access_token"], [], world, false⟩ := by
  simp [serve, handleWebUiRequest, hp, hx, Run.start, Run.emit, Run.log]

theorem serve_noToken (ext : String → Request → Except String String)
    (h : WebUiHandler σ Tunnel Config) (r : Request) (world : σ) (e : String)
    (hp : r.Path = "/tunnels" ∨ r.Path = "/delete-tunnel")
    (hx : ext "access_token" r = .error e) :
    serve ext h r world =
      ⟨[.WriteHeader 401, .Write "No token provided"],
       [.extractToken "access_token"], [], world, false⟩ := by
  rcases hp with hp | hp <;>
    simp [serve, handleWebUiRequest, hp, hx, Run.start, Run.emit, Run.log]

theorem serve_forbidden (ext : String → Request → Except String String)
    (h : WebUiHandler σ Tunnel Config) (r : Request) (world : σ) (t : String)
    (hp : r.Path = "/" ∨ r.Path = "/tunnels" ∨ r.Path = "/delete-tunnel")
    (hx : ext "access_token" r = .ok t) (ha : (h.auth.Authorized t world).1 = false) :
    serve ext h r world =
      ⟨[.WriteHeader 403, .Write "Not authorized"],
       [.extractToken "access_token", .Authorized t], [],
       (h.auth.Authorized t world).2, false⟩ := by
  rcases hp with hp | hp | hp <;>
    simp [serve, handleWebUiRequest, hp, hx, ha, Run.start, Run.emit, Run.log, Run.setWorld]

theorem serve_root_ok (ext : String → Request → Except String String)
    (h : WebUiHandler σ Tunnel Config) (r : Request) (world : σ) (t : String)
    (hp : r.Path = "/") (hx : ext "access_token" r = .ok t)
    (ha : (h.auth.Authorized t world).1 = true) :
    serve ext h r world =
      ⟨[.Execute h.indexTemplate (.index ⟨h.stylesText,
          (h.db.GetTunnels (h.auth.Authorized t world).2).1⟩)],
       [.extractToken "access_token", .Authorized t, .GetTunnels], [],
       (h.db.GetTunnels (h.auth.Authorized t world).2).2, false⟩ := by
  simp [serve, handleWebUiRequest, hp, hx, ha, Run.start, Run.emit, Run.log, Run.setWorld]

theorem serve_tunnels_ok (ext : String → Request → Except String String)
    (h : WebUiHandler σ Tunnel Config) (r : Request) (world : σ) (t : String)
    (hp : r.Path = "/tunnels") (hx : ext "access_token" r = .ok t)
    (ha : (h.auth.Authorized t world).1 = true) :
    serve ext h r world =
      handleTunnels h r ⟨[], [.extractToken "access_token", .Authorized t], [],
        (h.auth.Authorized t world).2, false⟩ := by
  simp [serve, handleWebUiRequest, hp, hx, ha, Run.start, Run.log, Run.setWorld]

theorem serve_confirm_bad (ext : String → Request → Except String String)
    (h : WebUiHandler σ Tunnel Config) (r : Request) (world : σ)
    (hp : r.Path = "/confirm-delete-tunnel") (hd : (r.Form.index "domain").length ≠ 1) :
    serve ext h r world =
      ⟨[.WriteHeader 400, .Write "Invalid domain parameter"], [], [], world, false⟩ := by
  simp [serve, handleWebUiRequest, hp, hd, Run.start, Run.emit]

theorem serve_confirm_ok (ext : String → Request → Except String String)
    (h : WebUiHandler σ Tunnel Config) (r : Request) (world : σ) (d : String)
    (hp : r.Path = "/confirm-delete-tunnel") (hd : r.Form.index "domain" = [d]) :
    serve ext h r world =
      ⟨[.Execute h.confirmTemplate (.confirm
          ⟨h.stylesText, "Are you sure you want to delete " ++ d ++ "?",
           "/delete-tunnel?domain=" ++ d, "/"⟩)], [], [], world, false⟩ := by
  simp [serve, handleWebUiRequest, hp, hd, Run.start, Run.emit]

theorem serve_delete_bad (ext : String → Request → Except String String)
    (h : WebUiHandler σ Tunnel Config) (r : Request) (world : σ) (t : String)
    (hp : r.Path = "/delete-tunnel") (hx : ext "access_token" r = .ok t)
    (ha : (h.auth.Authorized t world).1 = true)
    (hd : (r.Form.index "domain").length ≠ 1) :
    serve ext h r world =
      ⟨[.WriteHeader 400, .Write "Invalid domain parameter"],
       [.extractToken "access_token", .Authorized t], [],
       (h.auth.Authorized t world).2, false⟩ := by
  simp [serve, handleWebUiRequest, hp, hx, ha, hd, Run.start, Run.emit, Run.log, Run.setWorld]

theorem serve_delete_ok (ext : String → Request → Except String String)
    (h : WebUiHandler σ Tunnel Config) (r : Request) (world : σ) (t d : String)
    (hp : r.Path = "/delete-tunnel") (hx : ext "access_token" r = .ok t)
    (ha : (h.auth.Authorized t world).1 = true)
    (hd : r.Form.index "domain" = [d]) :
    serve ext h r world =
      ⟨[.Redirect "/" 307 r.Method],
       [.extractToken "access_token", .Authorized t, .DeleteTunnel d], [],
       h.tunMan.DeleteTunnel d (h.auth.Authorized t world).2, false⟩ := by
  simp [serve, handleWebUiRequest, hp, hx, ha, hd, Run.start, Run.emit, Run.log, Run.setWorld]

theorem serve_other (ext : String → Request → Except String String)
    (h : WebUiHandler σ Tunnel Config) (r : Request) (world : σ)
    (h1 : r.Path ≠ "/login") (h2 : r.Path ≠ "/") (h3 : r.Path ≠ "/tunnels")
    (h4 : r.Path ≠ "/confirm-delete-tunnel") (h5 : r.Path ≠ "/delete-tunnel") :
    serve ext h r world =
      ⟨[.WriteHeader 400, .Write "Invalid endpoint"], [], [], world, false⟩ := by
  simp [serve, handleWebUiRequest, h1, h2, h3, h4, h5, Run.start, Run.emit]

theorem handleTunnels_calls (h : WebUiHandler σ Tunnel Config) (r : Request)
    (s : Run σ Tunnel Config) :
    (handleTunnels h r s).calls = s.calls ∨
      ∃ d n k, (handleTunnels h r s).calls =
        s.calls ++ [Call.CreateTunnelForClient d n k] := by
  unfold handleTunnels
  split
  · exact handleCreateTunnel_calls h r s
  · simp [Run.emit]

theorem handleCreateTunnel_invalid (h : WebUiHandler σ Tunnel Config) (r : Request)
    (s : Run σ Tunnel Config)
    (hbad : (r.Form.index "domain").length ≠ 1 ∨ (r.Form.index "client-name").length ≠ 1 ∨
      (r.Form.index "client-port").length ≠ 1 ∨
      ∃ p e, r.Form.index "client-port" = [p] ∧ Atoi p = .error e) :
    handleCreateTunnel h r s =
      ⟨s.w ++ [.WriteHeader 400, .Write
          (if (r.Form.index "domain").length ≠ 1 then "Invalid domain parameter"
           else if (r.Form.index "client-name").length ≠ 1 then "Invalid client-name parameter"
           else "Invalid client-port parameter")],
       s.calls, s.stdout, s.world, s.panicked⟩ := by
  unfold handleCreateTunnel
  by_cases hd : (r.Form.index "domain").length = 1
  · obtain ⟨d, hd⟩ := List.length_eq_one.mp hd
    by_cases hn : (r.Form.index "client-name").length = 1
    · obtain ⟨n, hn⟩ := List.length_eq_one.mp hn
      by_cases hq : (r.Form.index "client-port").length = 1
      · obtain ⟨p, hq⟩ := List.length_eq_one.mp hq
        rcases hbad with hb | hb | hb | ⟨p0, e, hp0, he⟩
        · simp [hd] at hb
        · simp [hn] at hb
        · simp [hq] at hb
        · have hpp : p = p0 := by simpa [hq] using hp0
          subst hpp
          simp [hd, hn, hq, he, Run.emit]
      · simp [hd, hn, hq, Run.emit]
    · simp [hd, hn, Run.emit]
  · simp [hd, Run.emit]

theorem handleCreateTunnel_valid (h : WebUiHandler σ Tunnel Config) (r : Request)
    (s : Run σ Tunnel Config) (d n p : String) (k : Int)
    (hd : r.Form.index "domain" = [d]) (hn : r.Form.index "client-name" = [n])
    (hq : r.Form.index "client-port" = [p]) (hk : Atoi p = .ok k) :
    handleCreateTunnel h r s =
      ⟨s.w ++ (match (h.tunMan.CreateTunnelForClient d n k s.world).1 with
          | .error err => [.WriteHeader 400, .Write err]
          | .ok _ => [.Redirect "/" 303 r.Method]),
       s.calls ++ [.CreateTunnelForClient d n k], s.stdout ++ [printlnLine d n k],
       (h.tunMan.CreateTunnelForClient d n k s.world).2, s.panicked⟩ := by
  unfold handleCreateTunnel
  simp only [hd, hn, hq, hk, List.length_singleton, ne_eq, not_true_eq_false, if_false,
    List.getElem?_cons_zero]
  cases hres : (h.tunMan.CreateTunnelForClient d n k (s.println (printlnLine d n k)).world).1 <;>
    simp [Run.println] at hres <;>
    simp [hres, Run.emit, Run.log, Run.setWorld, Run.println]

theorem handleLogin_get_noKey (h : WebUiHandler σ Tunnel Config) (r : Request)
    (s : Run σ Tunnel Config) (hm : r.Method = "GET") (hk : r.Query.find "key" = none) :
    handleLogin h r s =
      ⟨s.w ++ [.WriteHeader 400, .Write "Must provide key for verification"],
       s.calls, s.stdout, s.world, s.panicked⟩ := by
  simp [handleLogin, hm, hk, Run.emit]

theorem handleLogin_get_key (h : WebUiHandler σ Tunnel Config) (r : Request)
    (s : Run σ Tunnel Config) (K : String) (rest : List String)
    (hm : r.Method = "GET") (hk : r.Query.find "key" = some (K :: rest)) :
    handleLogin h r s =
      ⟨s.w ++ (match (h.auth.Verify K s.world).1 with
          | .error _ => [.WriteHeader 400, .Write "Invalid key"]
          | .ok token => [.SetCookie ⟨"access_token", token, true, true⟩,
              .Redirect "/" 307 r.Method]),
       s.calls ++ [.Verify K], s.stdout, (h.auth.Verify K s.world).2, s.panicked⟩ := by
  unfold handleLogin
  simp only [hm, hk, if_true, List.getElem?_cons_zero]
  cases hres : (h.auth.Verify K s.world).1 <;>
    simp [hres, Run.emit, Run.log, Run.setWorld]

/-! ## The claims -/

/-- C1: whenever the handler invokes `CreateTunnelForClient` or `DeleteTunnel`,
`extractToken("access_token", r)` succeeded with a token that `Authorized`
accepted (and that call is in the log); and a request to
`/confirm-delete-tunnel` calls no collaborator at all and leaves the
collaborators' world untouched. -/
theorem mutation_requires_authorization
    (extractToken : String → Request → Except String String)
    (h : WebUiHandler σ Tunnel Config) (r : Request) (world : σ) :
    (((∃ d n k, Call.CreateTunnelForClient d n k ∈ (serve extractToken h r world).calls) ∨
        (∃ d, Call.DeleteTunnel d ∈ (serve extractToken h r world).calls)) →
      ∃ t, extractToken "access_token" r = .ok t ∧ (h.auth.Authorized t world).1 = true ∧
        Call.Authorized t ∈ (serve extractToken h r world).calls) ∧
    (r.Path = "/confirm-delete-tunnel" →
      (serve extractToken h r world).calls = [] ∧
      (serve extractToken h r world).world = world) := by
  have hconfirm : r.Path = "/confirm-delete-tunnel" →
      (serve extractToken h r world).calls = [] ∧
      (serve extractToken h r world).world = world := by
    intro hp
    by_cases hd : (r.Form.index "domain").length = 1
    · obtain ⟨d, hd⟩ := List.length_eq_one.mp hd
      simp [serve_confirm_ok extractToken h r world d hp hd]
    · simp [serve_confirm_bad extractToken h r world hp hd]
  refine ⟨?_, hconfirm⟩
  by_cases h1 : r.Path = "/login"
  · rw [serve_login extractToken h r world h1]
    rcases handleLogin_calls h r (Run.start world) with e | ⟨k, e⟩ | ⟨k, e⟩ <;>
      rw [e] <;> simp [Run.start]
  by_cases h4 : r.Path = "/confirm-delete-tunnel"
  · simp [(hconfirm h4).1]
  by_cases h6 : r.Path = "/" ∨ r.Path = "/tunnels" ∨ r.Path = "/delete-tunnel"
  · cases hx : extractToken "access_token" r with
    | error e =>
      rcases h6 with h2 | h6
      · simp [serve_root_noToken extractToken h r world e h2 hx]
      · simp [serve_noToken extractToken h r world e h6 hx]
    | ok t =>
      cases ha : (h.auth.Authorized t world).1 with
      | false => simp [serve_forbidden extractToken h r world t h6 hx ha]
      | true =>
        intro _
        refine ⟨t, rfl, ha, ?_⟩
        rcases h6 with h2 | h3 | h5
        · simp [serve_root_ok extractToken h r world t h2 hx ha]
        · rw [serve_tunnels_ok extractToken h r world t h3 hx ha]
          rcases handleTunnels_calls h r ⟨[], [.extractToken "access_token", .Authorized t],
            [], (h.auth.Authorized t world).2, false⟩ with e | ⟨d, n, k, e⟩ <;>
            rw [e] <;> simp
        · by_cases hd : (r.Form.index "domain").length = 1
          · obtain ⟨d, hd⟩ := List.length_eq_one.mp hd
            simp [serve_delete_ok extractToken h r world t d h5 hx ha hd]
          · simp [serve_delete_bad extractToken h r world t h5 hx ha hd]
  · have h2 : r.Path ≠ "/" := fun e => h6 (Or.inl e)
    have h3 : r.Path ≠ "/tunnels" := fun e => h6 (Or.inr (Or.inl e))
    have h5 : r.Path ≠ "/delete-tunnel" := fun e => h6 (Or.inr (Or.inr e))
    simp [serve_other extractToken h r world h1 h2 h3 h4 h5]

/-- C1, worked: the delete of `a.example.com` carried the accepted token
`good`, and the confirmation prompt for it called nothing. -/
theorem mutation_requires_authorization_witness :
    (∃ t, cookieToken "access_token" (domainRequest "GET" "/delete-tunnel" [goodCookie]) = .ok t ∧
      (demoHandler.auth.Authorized t demoWorld).1 = true ∧
      Call.Authorized t ∈ (serve cookieToken demoHandler
        (domainRequest "GET" "/delete-tunnel" [goodCookie]) demoWorld).calls) ∧
    (serve cookieToken demoHandler
        (domainRequest "POST" "/confirm-delete-tunnel" []) demoWorld).calls = [] ∧
    (serve cookieToken demoHandler
        (domainRequest "POST" "/confirm-delete-tunnel" []) demoWorld).world = demoWorld :=
  ⟨(mutation_requires_authorization cookieToken demoHandler
      (domainRequest "GET" "/delete-tunnel" [goodCookie]) demoWorld).1
      (Or.inr ⟨"a.example.com", by decide⟩),
   (mutation_requires_authorization cookieToken demoHandler
      (domainRequest "POST" "/confirm-delete-tunnel" []) demoWorld).2 rfl⟩

/-- C2: a request to `/` (any method) for which `extractToken` fails gets
status 401 and the Login view rendered with the handler's stylesheet; the only
call made is `extractToken`, so neither `Authorized` nor `GetTunnels` runs. -/
theorem root_without_token_renders_login
    (extractToken : String → Request → Except String String)
    (h : WebUiHandler σ Tunnel Config) (r : Request) (world : σ) (e : String)
    (hp : r.Path = "/") (hx : extractToken "access_token" r = .error e) :
    statusCode (serve extractToken h r world).w = 401 ∧
    bodyOf (serve extractToken h r world).w =
      [.rendered h.loginTemplate (.login ⟨h.stylesText⟩)] ∧
    (serve extractToken h r world).calls = [.extractToken "access_token"] ∧
    (∀ t, Call.Authorized t ∉ (serve extractToken h r world).calls) ∧
    Call.GetTunnels ∉ (serve extractToken h r world).calls ∧
    (serve extractToken h r world).world = world := by
  rw [serve_root_noToken extractToken h r world e hp hx]
  simp [statusCode, bodyOf]

/-- C2, worked: `GET /` without cookies. -/
theorem root_without_token_renders_login_witness :
    statusCode (serve cookieToken demoHandler (rootRequest []) demoWorld).w = 401 ∧
    bodyOf (serve cookieToken demoHandler (rootRequest []) demoWorld).w =
      [.rendered ⟨"loginhtml", "login"⟩ (.login ⟨"body"⟩)] :=
  have key := root_without_token_renders_login cookieToken demoHandler (rootRequest [])
    demoWorld "http: named cookie not present" rfl rfl
  ⟨key.1, key.2.1⟩

/-- C3: on `/`, `/tunnels` and `/delete-tunnel`, a token that `Authorized`
rejects gets status 403 with the body exactly "Not authorized", and none of
`GetTunnels`, `CreateTunnelForClient`, `DeleteTunnel` is invoked. -/
theorem rejected_token_is_forbidden
    (extractToken : String → Request → Except String String)
    (h : WebUiHandler σ Tunnel Config) (r : Request) (world : σ) (t : String)
    (hp : r.Path = "/" ∨ r.Path = "/tunnels" ∨ r.Path = "/delete-tunnel")
    (hx : extractToken "access_token" r = .ok t)
    (ha : (h.auth.Authorized t world).1 = false) :
    statusCode (serve extractToken h r world).w = 403 ∧
    bodyOf (serve extractToken h r world).w = [.text "Not authorized"] ∧
    (serve extractToken h r world).calls = [.extractToken "access_token", .Authorized t] ∧
    Call.GetTunnels ∉ (serve extractToken h r world).calls ∧
    (∀ d n k, Call.CreateTunnelForClient d n k ∉ (serve extractToken h r world).calls) ∧
    (∀ d, Call.DeleteTunnel d ∉ (serve extractToken h r world).calls) := by
  rw [serve_forbidden extractToken h r world t hp hx ha]
  simp [statusCode, bodyOf]

/-- C3, worked: a delete with a stale cookie leaves the tunnel in place. -/
theorem rejected_token_is_forbidden_witness :
    statusCode (serve cookieToken demoHandler
      (domainRequest "POST" "/delete-tunnel" [staleCookie]) demoWorld).w = 403 ∧
    bodyOf (serve cookieToken demoHandler
      (domainRequest "POST" "/delete-tunnel" [staleCookie]) demoWorld).w =
        [.text "Not authorized"] ∧
    ∀ d, Call.DeleteTunnel d ∉ (serve cookieToken demoHandler
      (domainRequest "POST" "/delete-tunnel" [staleCookie]) demoWorld).calls :=
  have key := rejected_token_is_forbidden cookieToken demoHandler
    (domainRequest "POST" "/delete-tunnel" [staleCookie]) demoWorld "stale"
    (Or.inr (Or.inr rfl)) rfl rfl
  ⟨key.1, key.2.1, key.2.2.2.2.2⟩

/-- C4: a request to `/` with a token `Authorized` accepts writes no error
status (the status is 200) and renders the Index view once, with `Tunnels`
exactly the mapping `GetTunnels()` returned (called once, after `Authorized`)
and `Styles` the handler's stylesheet; so every domain key of that mapping is
in the data the body is rendered from. -/
theorem root_with_token_renders_index
    (extractToken : String → Request → Except String String)
    (h : WebUiHandler σ Tunnel Config) (r : Request) (world : σ) (t : String)
    (hp : r.Path = "/") (hx : extractToken "access_token" r = .ok t)
    (ha : (h.auth.Authorized t world).1 = true) :
    statusCode (serve extractToken h r world).w = 200 ∧
    (serve extractToken h r world).calls =
      [.extractToken "access_token", .Authorized t, .GetTunnels] ∧
    ∃ data : IndexData Tunnel,
      (serve extractToken h r world).w = [.Execute h.indexTemplate (.index data)] ∧
      bodyOf (serve extractToken h r world).w = [.rendered h.indexTemplate (.index data)] ∧
      data.Tunnels = (h.db.GetTunnels (h.auth.Authorized t world).2).1 ∧
      data.Styles = h.stylesText ∧
      ∀ domain ∈ ((h.db.GetTunnels (h.auth.Authorized t world).2).1).map Prod.fst,
        domain ∈ data.Tunnels.map Prod.fst := by
  rw [serve_root_ok extractToken h r world t hp hx ha]
  refine ⟨by simp [statusCode], rfl, ⟨h.stylesText, _⟩, rfl, by simp [bodyOf], rfl, rfl, ?_⟩
  intro domain hdom
  exact hdom

/-- C4, worked: `GET /` with the accepted cookie lists `a.example.com`. -/
theorem root_with_token_renders_index_witness :
    statusCode (serve cookieToken demoHandler (rootRequest [goodCookie]) demoWorld).w = 200 ∧
    (serve cookieToken demoHandler (rootRequest [goodCookie]) demoWorld).calls =
      [.extractToken "access_token", .Authorized "good", .GetTunnels] :=
  have key := root_with_token_renders_index cookieToken demoHandler
    (rootRequest [goodCookie]) demoWorld "good" rfl rfl rfl
  ⟨key.1, key.2.1⟩

/-- C5: an authorized POST to `/tunnels` with exactly one `domain` value `d`,
one `client-name` value `n` and one `client-port` value `p` that `Atoi` parses
to `k` calls `CreateTunnelForClient` exactly once, with `(d, n, k)`: the call
log ends with that one call and the world the request leaves is the one that
call produced from the world `Authorized` left; and when the call returns no
error the response is a 303 redirect to `/`. -/
theorem create_tunnel_calls_manager
    (extractToken : String → Request → Except String String)
    (h : WebUiHandler σ Tunnel Config) (r : Request) (world : σ) (t d n p : String) (k : Int)
    (hp : r.Path = "/tunnels") (hm : r.Method = "POST")
    (hx : extractToken "access_token" r = .ok t)
    (ha : (h.auth.Authorized t world).1 = true)
    (hd : r.Form.index "domain" = [d]) (hn : r.Form.index "client-name" = [n])
    (hq : r.Form.index "client-port" = [p]) (hk : Atoi p = .ok k) :
    (serve extractToken h r world).calls =
      [.extractToken "access_token", .Authorized t, .CreateTunnelForClient d n k] ∧
    (serve extractToken h r world).world =
      (h.tunMan.CreateTunnelForClient d n k (h.auth.Authorized t world).2).2 ∧
    (serve extractToken h r world).stdout = [printlnLine d n k] ∧
    (∀ tunnel,
      (h.tunMan.CreateTunnelForClient d n k (h.auth.Authorized t world).2).1 = .ok tunnel →
      (serve extractToken h r world).w = [.Redirect "/" 303 "POST"] ∧
      statusCode (serve extractToken h r world).w = 303 ∧
      locationOf (serve extractToken h r world).w = ["/"]) := by
  rw [serve_tunnels_ok extractToken h r world t hp hx ha]
  simp only [handleTunnels, hm, if_true]
  rw [handleCreateTunnel_valid h r _ d n p k hd hn hq hk]
  refine ⟨by simp, rfl, by simp, ?_⟩
  intro tunnel hres
  simp [hres, hm, statusCode, locationOf]

/-- C5, worked: `domain=a.example.com, client-name=foo, client-port=8080`
gives the call `("a.example.com", "foo", 8080)`, the tunnel is in the world
afterwards, and the response is a 303 to `/`. -/
theorem create_tunnel_calls_manager_witness :
    (serve cookieToken demoHandler (createRequest (createForm "8080") [goodCookie]) []).calls =
      [.extractToken "access_token", .Authorized "good",
       .CreateTunnelForClient "a.example.com" "foo" 8080] ∧
    (serve cookieToken demoHandler (createRequest (createForm "8080") [goodCookie]) []).world =
      [("a.example.com", 8080)] ∧
    statusCode (serve cookieToken demoHandler
      (createRequest (createForm "8080") [goodCookie]) []).w = 303 ∧
    locationOf (serve cookieToken demoHandler
      (createRequest (createForm "8080") [goodCookie]) []).w = ["/"] :=
  have key := create_tunnel_calls_manager cookieToken demoHandler
    (createRequest (createForm "8080") [goodCookie]) [] "good" "a.example.com" "foo" "8080" 8080
    rfl rfl rfl rfl rfl rfl rfl rfl
  ⟨key.1, key.2.1, (key.2.2.2 8080 rfl).2⟩

/-- C6: an authorized POST to `/tunnels` in which `domain`, `client-name` or
`client-port` does not have exactly one value, or in which `client-port` does
not parse, gets status 400 with the message naming the first offending field
in the order domain, client-name, client-port, and `CreateTunnelForClient` is
never invoked. -/
theorem create_tunnel_rejects_bad_form
    (extractToken : String → Request → Except String String)
    (h : WebUiHandler σ Tunnel Config) (r : Request) (world : σ) (t : String)
    (hp : r.Path = "/tunnels") (hm : r.Method = "POST")
    (hx : extractToken "access_token" r = .ok t)
    (ha : (h.auth.Authorized t world).1 = true)
    (hbad : (r.Form.index "domain").length ≠ 1 ∨ (r.Form.index "client-name").length ≠ 1 ∨
      (r.Form.index "client-port").length ≠ 1 ∨
      ∃ p e, r.Form.index "client-port" = [p] ∧ Atoi p = .error e) :
    statusCode (serve extractToken h r world).w = 400 ∧
    bodyOf (serve extractToken h r world).w =
      [.text (if (r.Form.index "domain").length ≠ 1 then "Invalid domain parameter"
              else if (r.Form.index "client-name").length ≠ 1 then
                "Invalid client-name parameter"
              else "Invalid client-port parameter")] ∧
    (serve extractToken h r world).calls = [.extractToken "access_token", .Authorized t] ∧
    (∀ d n k, Call.CreateTunnelForClient d n k ∉ (serve extractToken h r world).calls) ∧
    (serve extractToken h r world).world = (h.auth.Authorized t world).2 := by
  rw [serve_tunnels_ok extractToken h r world t hp hx ha]
  simp only [handleTunnels, hm, if_true]
  rw [handleCreateTunnel_invalid h r _ hbad]
  simp [statusCode, bodyOf]

/-- C6, worked: `client-port=notanumber` gets 400 "Invalid client-port
parameter" and no tunnel is created. -/
theorem create_tunnel_rejects_bad_form_witness :
    statusCode (serve cookieToken demoHandler
      (createRequest (createForm "notanumber") [goodCookie]) []).w = 400 ∧
    bodyOf (serve cookieToken demoHandler
      (createRequest (createForm "notanumber") [goodCookie]) []).w =
        [.text "Invalid client-port parameter"] ∧
    ∀ d n k, Call.CreateTunnelForClient d n k ∉ (serve cookieToken demoHandler
      (createRequest (createForm "notanumber") [goodCookie]) []).calls :=
  have key := create_tunnel_rejects_bad_form cookieToken demoHandler
    (createRequest (createForm "notanumber") [goodCookie]) [] "good" rfl rfl rfl rfl
    (Or.inr (Or.inr (Or.inr ⟨"notanumber", "invalid syntax", rfl, rfl⟩)))
  ⟨key.1, key.2.1, key.2.2.2.1⟩

/-- C7: a request to `/delete-tunnel`, whatever its method, with a token
`Authorized` accepts: with exactly one `domain` value `d`, `DeleteTunnel` is
invoked exactly once, with `d`, and the response is a 307 redirect to `/`;
with any other number of `domain` values the response is 400 "Invalid domain
parameter" and `DeleteTunnel` is not invoked. -/
theorem delete_tunnel_commits
    (extractToken : String → Request → Except String String)
    (h : WebUiHandler σ Tunnel Config) (r : Request) (world : σ) (t : String)
    (hp : r.Path = "/delete-tunnel")
    (hx : extractToken "access_token" r = .ok t)
    (ha : (h.auth.Authorized t world).1 = true) :
    (∀ d, r.Form.index "domain" = [d] →
      (serve extractToken h r world).calls =
        [.extractToken "access_token", .Authorized t, .DeleteTunnel d] ∧
      (serve extractToken h r world).world =
        h.tunMan.DeleteTunnel d (h.auth.Authorized t world).2 ∧
      statusCode (serve extractToken h r world).w = 307 ∧
      locationOf (serve extractToken h r world).w = ["/"]) ∧
    ((r.Form.index "domain").length ≠ 1 →
      statusCode (serve extractToken h r world).w = 400 ∧
      bodyOf (serve extractToken h r world).w = [.text "Invalid domain parameter"] ∧
      locationOf (serve extractToken h r world).w = [] ∧
      (serve extractToken h r world).calls = [.extractToken "access_token", .Authorized t] ∧
      ∀ d, Call.DeleteTunnel d ∉ (serve extractToken h r world).calls) := by
  constructor
  · intro d hd
    rw [serve_delete_ok extractToken h r world t d hp hx ha hd]
    simp [statusCode, locationOf, bodyOf]
  · intro hd
    rw [serve_delete_bad extractToken h r world t hp hx ha hd]
    simp [statusCode, locationOf, bodyOf]

/-- C7, worked: `PUT /delete-tunnel` with `domain=a.example.com` deletes that
tunnel and redirects with 307. -/
theorem delete_tunnel_commits_witness :
    (serve cookieToken demoHandler
      (domainRequest "PUT" "/delete-tunnel" [goodCookie]) demoWorld).calls =
        [.extractToken "access_token", .Authorized "good", .DeleteTunnel "a.example.com"] ∧
    (serve cookieToken demoHandler
      (domainRequest "PUT" "/delete-tunnel" [goodCookie]) demoWorld).world = [] ∧
    statusCode (serve cookieToken demoHandler
      (domainRequest "PUT" "/delete-tunnel" [goodCookie]) demoWorld).w = 307 :=
  have key := (delete_tunnel_commits cookieToken demoHandler
    (domainRequest "PUT" "/delete-tunnel" [goodCookie]) demoWorld "good" rfl rfl rfl).1
    "a.example.com" rfl
  ⟨key.1, key.2.1, key.2.2.1⟩

/-- C8: a request to `/confirm-delete-tunnel` (any method, any cookies): with
exactly one `domain` value `d`, no status is written (the status is 200) and
the Confirmation view is rendered with `ConfirmUrl` the string
"/delete-tunnel?domain=" followed by `d` unchanged, `CancelUrl` "/" and
`Message` "Are you sure you want to delete d?"; with any other number of
`domain` values the response is 400 "Invalid domain parameter" and no view is
rendered. -/
theorem confirm_delete_prompts
    (extractToken : String → Request → Except String String)
    (h : WebUiHandler σ Tunnel Config) (r : Request) (world : σ)
    (hp : r.Path = "/confirm-delete-tunnel") :
    (∀ d, r.Form.index "domain" = [d] →
      statusCode (serve extractToken h r world).w = 200 ∧
      (serve extractToken h r world).w = [.Execute h.confirmTemplate (.confirm
        ⟨h.stylesText, "Are you sure you want to delete " ++ d ++ "?",
         "/delete-tunnel?domain=" ++ d, "/"⟩)]) ∧
    ((r.Form.index "domain").length ≠ 1 →
      statusCode (serve extractToken h r world).w = 400 ∧
      (serve extractToken h r world).w =
        [.WriteHeader 400, .Write "Invalid domain parameter"] ∧
      bodyOf (serve extractToken h r world).w = [.text "Invalid domain parameter"]) := by
  constructor
  · intro d hd
    rw [serve_confirm_ok extractToken h r world d hp hd]
    simp [statusCode]
  · intro hd
    rw [serve_confirm_bad extractToken h r world hp hd]
    simp [statusCode, bodyOf]

/-- C8, worked: `GET /confirm-delete-tunnel?domain=a.example.com`. -/
theorem confirm_delete_prompts_witness :
    statusCode (serve cookieToken demoHandler
      (domainRequest "GET" "/confirm-delete-tunnel" []) demoWorld).w = 200 ∧
    (serve cookieToken demoHandler
      (domainRequest "GET" "/confirm-delete-tunnel" []) demoWorld).w =
        [.Execute ⟨"confirmhtml", "confirm"⟩ (.confirm
          ⟨"body", "Are you sure you want to delete a.example.com?",
           "/delete-tunnel?domain=a.example.com", "/"⟩)] :=
  (confirm_delete_prompts cookieToken demoHandler
    (domainRequest "GET" "/confirm-delete-tunnel" []) demoWorld rfl).1 "a.example.com" rfl

theorem sanitizeCookieValue_of_valid (v : String)
    (hv : ∀ c ∈ v.data, validCookieValueByte c = true ∧ c ≠ ' ' ∧ c ≠ ',') :
    sanitizeCookieValue v = v := by
  have hkeep : v.data.filter validCookieValueByte = v.data :=
    List.filter_eq_self.mpr (fun c hc => (hv c hc).1)
  have hplain : ¬ (' ' ∈ v.data ∨ ',' ∈ v.data) := by
    rintro (hs | hs)
    · exact (hv _ hs).2.1 rfl
    · exact (hv _ hs).2.2 rfl
  unfold sanitizeCookieValue
  simp only [hkeep, hplain, if_false]
  by_cases he : v.data = []
  · simp only [he, if_true]
    exact String.ext he.symm
  · simp only [he, if_false]

theorem cookieString_access_token (T : String) :
    cookieString ⟨"access_token", T, true, true⟩ =
      "access_token=" ++ sanitizeCookieValue T ++ "; HttpOnly; Secure" := by
  have hname : isCookieNameValid "access_token" = true := by decide
  simp only [cookieString, hname, if_true]
  rw [String.append_assoc ("access_token" ++ "=" ++ sanitizeCookieValue T)]
  rfl

theorem cookieString_access_token_ne (T : String) :
    cookieString ⟨"access_token", T, true, true⟩ ≠ "" := by
  rw [cookieString_access_token]
  intro hempty
  have hlen := congrArg String.length hempty
  simp only [String.length_append] at hlen
  have h13 : ("access_token=" : String).length = 13 := by decide
  have h0 : ("" : String).length = 0 := by decide
  omega

/-- C9, as stated, fails: when `Verify` returns the token `a;b`, the cookie
the response sets has the value `ab`, not `a;b`. -/
theorem login_key_cookie_value_counterexample :
    (semicolonHandler.auth.Verify "k1" demoWorld).1 = .ok "a;b" ∧
    setCookieHeaders (serve cookieToken semicolonHandler
      (loginRequest [("key", ["k1"])]) demoWorld).w =
      ["access_token=ab; HttpOnly; Secure"] ∧
    setCookieHeaders (serve cookieToken semicolonHandler
      (loginRequest [("key", ["k1"])]) demoWorld).w ≠
      ["access_token=a;b; HttpOnly; Secure"] :=
  ⟨rfl, by decide, by decide⟩

/-- C9, amended: a GET to `/login` whose query has `key` with first value `K`,
where `Verify(K)` returns the token `T` without error, passes to
`http.SetCookie` one cookie with Name "access_token", Value `T`, Secure and
HttpOnly true, and answers with a 307 redirect to `/`. The response carries
the one header `Set-Cookie: access_token=v; HttpOnly; Secure` where `v` is `T`
as `net/http` sanitises it (bytes not allowed in a cookie value dropped,
double quotes around a value holding a space or a comma); `v` is exactly `T`
when `T` is made of allowed bytes other than space and comma. -/
theorem login_key_sets_cookie
    (extractToken : String → Request → Except String String)
    (h : WebUiHandler σ Tunnel Config) (r : Request) (world : σ)
    (K T : String) (rest : List String)
    (hp : r.Path = "/login") (hm : r.Method = "GET")
    (hk : r.Query.find "key" = some (K :: rest))
    (hv : (h.auth.Verify K world).1 = .ok T) :
    cookiesOf (serve extractToken h r world).w = [⟨"access_token", T, true, true⟩] ∧
    setCookieHeaders (serve extractToken h r world).w =
      ["access_token=" ++ sanitizeCookieValue T ++ "; HttpOnly; Secure"] ∧
    ((∀ c ∈ T.data, validCookieValueByte c = true ∧ c ≠ ' ' ∧ c ≠ ',') →
      setCookieHeaders (serve extractToken h r world).w =
        ["access_token=" ++ T ++ "; HttpOnly; Secure"]) ∧
    statusCode (serve extractToken h r world).w = 307 ∧
    locationOf (serve extractToken h r world).w = ["/"] ∧
    (serve extractToken h r world).w =
      [.SetCookie ⟨"access_token", T, true, true⟩, .Redirect "/" 307 "GET"] ∧
    (serve extractToken h r world).calls = [.Verify K] ∧
    (serve extractToken h r world).world = (h.auth.Verify K world).2 := by
  have hw : (serve extractToken h r world).w =
      [.SetCookie ⟨"access_token", T, true, true⟩, .Redirect "/" 307 "GET"] := by
    rw [serve_login extractToken h r world hp, handleLogin_get_key h r _ K rest hm hk]
    simp [Run.start, hv, hm]
  have hheader : setCookieHeaders (serve extractToken h r world).w =
      ["access_token=" ++ sanitizeCookieValue T ++ "; HttpOnly; Secure"] := by
    have hne := cookieString_access_token_ne T
    rw [cookieString_access_token] at hne
    rw [hw]
    simp only [setCookieHeaders, cookieString_access_token T, if_neg hne]
  refine ⟨by simp [hw, cookiesOf], hheader, ?_, by simp [hw, statusCode],
    by simp [hw, locationOf], hw, ?_, ?_⟩
  · intro hvalid
    rw [hheader, sanitizeCookieValue_of_valid T hvalid]
  · rw [serve_login extractToken h r world hp, handleLogin_get_key h r _ K rest hm hk]
    simp [Run.start]
  · rw [serve_login extractToken h r world hp, handleLogin_get_key h r _ K rest hm hk]
    simp [Run.start]

/-- C9 amended, worked: `GET /login?key=k1`, where `k1` verifies into the
token `good`, sets `access_token=good; HttpOnly; Secure` and redirects. -/
theorem login_key_sets_cookie_witness :
    cookiesOf (serve cookieToken demoHandler (loginRequest [("key", ["k1"])]) demoWorld).w =
      [⟨"access_token", "good", true, true⟩] ∧
    setCookieHeaders (serve cookieToken demoHandler
      (loginRequest [("key", ["k1"])]) demoWorld).w =
      ["access_token=good; HttpOnly; Secure"] ∧
    statusCode (serve cookieToken demoHandler (loginRequest [("key", ["k1"])]) demoWorld).w =
      307 ∧
    locationOf (serve cookieToken demoHandler (loginRequest [("key", ["k1"])]) demoWorld).w =
      ["/"] :=
  have key := login_key_sets_cookie cookieToken demoHandler (loginRequest [("key", ["k1"])])
    demoWorld "k1" "good" [] rfl rfl rfl rfl
  ⟨key.1, key.2.2.1 (by decide), key.2.2.2.1, key.2.2.2.2.1⟩

/-- C10: a GET to `/login` without `key` in the query gets status 400 with
"Must provide key for verification" and `Verify` is not called; with `key`
present, first value `K`, and `Verify(K)` returning an error, it gets status
400 with the body "Invalid key". In both cases no cookie is set and no
redirect is issued. -/
theorem login_key_rejected
    (extractToken : String → Request → Except String String)
    (h : WebUiHandler σ Tunnel Config) (r : Request) (world : σ)
    (hp : r.Path = "/login") (hm : r.Method = "GET") :
    (r.Query.find "key" = none →
      statusCode (serve extractToken h r world).w = 400 ∧
      bodyOf (serve extractToken h r world).w = [.text "Must provide key for verification"] ∧
      (serve extractToken h r world).calls = [] ∧
      cookiesOf (serve extractToken h r world).w = [] ∧
      locationOf (serve extractToken h r world).w = []) ∧
    (∀ K rest e, r.Query.find "key" = some (K :: rest) →
      (h.auth.Verify K world).1 = .error e →
      statusCode (serve extractToken h r world).w = 400 ∧
      bodyOf (serve extractToken h r world).w = [.text "Invalid key"] ∧
      (serve extractToken h r world).calls = [.Verify K] ∧
      cookiesOf (serve extractToken h r world).w = [] ∧
      locationOf (serve extractToken h r world).w = []) := by
  constructor
  · intro hk
    rw [serve_login extractToken h r world hp, handleLogin_get_noKey h r _ hm hk]
    simp [Run.start, statusCode, bodyOf, cookiesOf, locationOf]
  · intro K rest e hk hv
    rw [serve_login extractToken h r world hp, handleLogin_get_key h r _ K rest hm hk]
    simp [Run.start, hv, statusCode, bodyOf, cookiesOf, locationOf]

/-- C10, worked: `GET /login` without a key, and with the unknown key `zzz`. -/
theorem login_key_rejected_witness :
    (statusCode (serve cookieToken demoHandler (loginRequest []) demoWorld).w = 400 ∧
      (serve cookieToken demoHandler (loginRequest []) demoWorld).calls = []) ∧
    (statusCode (serve cookieToken demoHandler
        (loginRequest [("key", ["zzz"])]) demoWorld).w = 400 ∧
      bodyOf (serve cookieToken demoHandler
        (loginRequest [("key", ["zzz"])]) demoWorld).w = [.text "Invalid key"] ∧
      cookiesOf (serve cookieToken demoHandler
        (loginRequest [("key", ["zzz"])]) demoWorld).w = []) :=
  have none_case := (login_key_rejected cookieToken demoHandler (loginRequest [])
    demoWorld rfl rfl).1 rfl
  have bad_case := (login_key_rejected cookieToken demoHandler
    (loginRequest [("key", ["zzz"])]) demoWorld rfl rfl).2 "zzz" [] "unknown key" rfl rfl
  ⟨⟨none_case.1, none_case.2.2.1⟩, bad_case.1, bad_case.2.1, bad_case.2.2.2.1⟩

/-! ## Further branch lemmas -/

theorem handleLogin_post_noEmail (h : WebUiHandler σ Tunnel Config) (r : Request)
    (s : Run σ Tunnel Config) (hm : r.Method = "POST") (he : r.Form.find "email" = none) :
    handleLogin h r s =
      ⟨s.w ++ [.WriteHeader 400, .Write "Email required for login"],
       s.calls, s.stdout, s.world, s.panicked⟩ := by
  simp [handleLogin, hm, he, Run.emit]

theorem handleLogin_post_email (h : WebUiHandler σ Tunnel Config) (r : Request)
    (s : Run σ Tunnel Config) (email : String) (rest : List String)
    (hm : r.Method = "POST") (he : r.Form.find "email" = some (email :: rest)) :
    handleLogin h r s =
      ⟨s.w ++ [.Write "Check your email to finish logging in"],
       s.calls ++ [.Login email h.config], s.stdout, s.world, s.panicked⟩ := by
  simp [handleLogin, hm, he, Run.emit, Run.log]

theorem handleLogin_badMethod (h : WebUiHandler σ Tunnel Config) (r : Request)
    (s : Run σ Tunnel Config) (hg : r.Method ≠ "GET") (hq : r.Method ≠ "POST") :
    handleLogin h r s =
      ⟨s.w ++ [.WriteHeader 405, .Write "Invalid method for login"],
       s.calls, s.stdout, s.world, s.panicked⟩ := by
  simp [handleLogin, hg, hq, Run.emit]

theorem handleTunnels_badMethod (h : WebUiHandler σ Tunnel Config) (r : Request)
    (s : Run σ Tunnel Config) (hq : r.Method ≠ "POST") :
    handleTunnels h r s =
      ⟨s.w ++ [.WriteHeader 405, .Write "Invalid method for /tunnels"],
       s.calls, s.stdout, s.world, s.panicked⟩ := by
  simp [handleTunnels, hq, Run.emit]

/-! ## The claims, continued -/

/-- C12: a POST to `/login` without the form field `email` gets status 400
with "Email required for login" and `Login` is never launched; with `email`
present, first value `email`, `Login` is launched exactly once, with that
value and the handler's config, and the response is status 200 with the body
exactly "Check your email to finish logging in" (the handler never waits for
the launched `Login` nor reads anything from it). -/
theorem login_post_sends_link
    (extractToken : String → Request → Except String String)
    (h : WebUiHandler σ Tunnel Config) (r : Request) (world : σ)
    (hp : r.Path = "/login") (hm : r.Method = "POST") :
    (r.Form.find "email" = none →
      statusCode (serve extractToken h r world).w = 400 ∧
      bodyOf (serve extractToken h r world).w = [.text "Email required for login"] ∧
      (serve extractToken h r world).calls = [] ∧
      ∀ e c, Call.Login e c ∉ (serve extractToken h r world).calls) ∧
    (∀ email rest, r.Form.find "email" = some (email :: rest) →
      (serve extractToken h r world).calls = [.Login email h.config] ∧
      statusCode (serve extractToken h r world).w = 200 ∧
      bodyOf (serve extractToken h r world).w =
        [.text "Check your email to finish logging in"] ∧
      (serve extractToken h r world).w = [.Write "Check your email to finish logging in"] ∧
      (serve extractToken h r world).world = world) := by
  constructor
  · intro he
    rw [serve_login extractToken h r world hp, handleLogin_post_noEmail h r _ hm he]
    simp [Run.start, statusCode, bodyOf]
  · intro email rest he
    rw [serve_login extractToken h r world hp, handleLogin_post_email h r _ email rest hm he]
    simp [Run.start, statusCode, bodyOf]

/-- C12, worked: `POST /login` with an empty form, and with
`email=ann@example.com`. -/
theorem login_post_sends_link_witness :
    (statusCode (serve cookieToken demoHandler (loginPost []) demoWorld).w = 400 ∧
      (serve cookieToken demoHandler (loginPost []) demoWorld).calls = []) ∧
    ((serve cookieToken demoHandler
        (loginPost [("email", ["ann@example.com"])]) demoWorld).calls =
        [.Login "ann@example.com" ()] ∧
      statusCode (serve cookieToken demoHandler
        (loginPost [("email", ["ann@example.com"])]) demoWorld).w = 200 ∧
      bodyOf (serve cookieToken demoHandler
        (loginPost [("email", ["ann@example.com"])]) demoWorld).w =
        [.text "Check your email to finish logging in"]) :=
  have absent := (login_post_sends_link cookieToken demoHandler (loginPost [])
    demoWorld rfl rfl).1 rfl
  have present := (login_post_sends_link cookieToken demoHandler
    (loginPost [("email", ["ann@example.com"])]) demoWorld rfl rfl).2
    "ann@example.com" [] rfl
  ⟨⟨absent.1, absent.2.2.1⟩, present.1, present.2.1, present.2.2.1⟩

/-- C13: a request whose path is none of `/login`, `/`, `/tunnels`,
`/confirm-delete-tunnel`, `/delete-tunnel` gets status 400 with the body
exactly "Invalid endpoint"; no call is made (`extractToken`, `Auth`,
`Database`, `TunnelManager`), no template is executed and the world is
unchanged. -/
theorem unknown_path_is_invalid_endpoint
    (extractToken : String → Request → Except String String)
    (h : WebUiHandler σ Tunnel Config) (r : Request) (world : σ)
    (h1 : r.Path ≠ "/login") (h2 : r.Path ≠ "/") (h3 : r.Path ≠ "/tunnels")
    (h4 : r.Path ≠ "/confirm-delete-tunnel") (h5 : r.Path ≠ "/delete-tunnel") :
    statusCode (serve extractToken h r world).w = 400 ∧
    bodyOf (serve extractToken h r world).w = [.text "Invalid endpoint"] ∧
    (serve extractToken h r world).w = [.WriteHeader 400, .Write "Invalid endpoint"] ∧
    (serve extractToken h r world).calls = [] ∧
    (serve extractToken h r world).world = world := by
  rw [serve_other extractToken h r world h1 h2 h3 h4 h5]
  simp [statusCode, bodyOf]

/-- C13, worked: the paths `/foo`, `/login/` and the empty path. -/
theorem unknown_path_is_invalid_endpoint_witness :
    (statusCode (serve cookieToken demoHandler
        (domainRequest "GET" "/foo" [goodCookie]) demoWorld).w = 400 ∧
      (serve cookieToken demoHandler
        (domainRequest "GET" "/foo" [goodCookie]) demoWorld).calls = []) ∧
    bodyOf (serve cookieToken demoHandler
      (domainRequest "GET" "/login/" [goodCookie]) demoWorld).w = [.text "Invalid endpoint"] ∧
    bodyOf (serve cookieToken demoHandler
      (domainRequest "POST" "" [goodCookie]) demoWorld).w = [.text "Invalid endpoint"] :=
  have foo := unknown_path_is_invalid_endpoint cookieToken demoHandler
    (domainRequest "GET" "/foo" [goodCookie]) demoWorld
    (by decide) (by decide) (by decide) (by decide) (by decide)
  have slash := unknown_path_is_invalid_endpoint cookieToken demoHandler
    (domainRequest "GET" "/login/" [goodCookie]) demoWorld
    (by decide) (by decide) (by decide) (by decide) (by decide)
  have empty := unknown_path_is_invalid_endpoint cookieToken demoHandler
    (domainRequest "POST" "" [goodCookie]) demoWorld
    (by decide) (by decide) (by decide) (by decide) (by decide)
  ⟨⟨foo.1, foo.2.2.2.1⟩, slash.2.1, empty.2.1⟩

/-- C14: an authorized POST to `/tunnels` with well-formed fields for which
`CreateTunnelForClient` returns the error `e` gets status 400 with the body
exactly the text of `e`, nothing added or removed, and no redirect. -/
theorem create_tunnel_reports_error
    (extractToken : String → Request → Except String String)
    (h : WebUiHandler σ Tunnel Config) (r : Request) (world : σ)
    (t d n p e : String) (k : Int)
    (hp : r.Path = "/tunnels") (hm : r.Method = "POST")
    (hx : extractToken "access_token" r = .ok t)
    (ha : (h.auth.Authorized t world).1 = true)
    (hd : r.Form.index "domain" = [d]) (hn : r.Form.index "client-name" = [n])
    (hq : r.Form.index "client-port" = [p]) (hk : Atoi p = .ok k)
    (hres : (h.tunMan.CreateTunnelForClient d n k (h.auth.Authorized t world).2).1 =
      .error e) :
    statusCode (serve extractToken h r world).w = 400 ∧
    bodyOf (serve extractToken h r world).w = [.text e] ∧
    locationOf (serve extractToken h r world).w = [] ∧
    (serve extractToken h r world).w = [.WriteHeader 400, .Write e] := by
  rw [serve_tunnels_ok extractToken h r world t hp hx ha]
  simp only [handleTunnels, hm, if_true]
  rw [handleCreateTunnel_valid h r _ d n p k hd hn hq hk]
  simp [hres, statusCode, bodyOf, locationOf]

/-- C14, worked: creating `a.example.com` a second time surfaces the
manager's "Tunnel domain already exists". -/
theorem create_tunnel_reports_error_witness :
    statusCode (serve cookieToken demoHandler
      (createRequest (createForm "8080") [goodCookie]) demoWorld).w = 400 ∧
    bodyOf (serve cookieToken demoHandler
      (createRequest (createForm "8080") [goodCookie]) demoWorld).w =
        [.text "Tunnel domain already exists"] ∧
    locationOf (serve cookieToken demoHandler
      (createRequest (createForm "8080") [goodCookie]) demoWorld).w = [] :=
  have key := create_tunnel_reports_error cookieToken demoHandler
    (createRequest (createForm "8080") [goodCookie]) demoWorld
    "good" "a.example.com" "foo" "8080" "Tunnel domain already exists" 8080
    rfl rfl rfl rfl rfl rfl rfl rfl rfl
  ⟨key.1, key.2.1, key.2.2.1⟩

/-- C15: an authorized request to `/tunnels` whose method is not POST gets
status 405 with "Invalid method for /tunnels" and `CreateTunnelForClient` is
not invoked; a request to `/login` whose method is neither GET nor POST gets
status 405 with "Invalid method for login", neither `Verify` nor `Login` is
invoked and no cookie is set. -/
theorem method_mismatch_is_405
    (extractToken : String → Request → Except String String)
    (h : WebUiHandler σ Tunnel Config) (r : Request) (world : σ) :
    (∀ t, r.Path = "/tunnels" → r.Method ≠ "POST" →
      extractToken "access_token" r = .ok t → (h.auth.Authorized t world).1 = true →
      statusCode (serve extractToken h r world).w = 405 ∧
      bodyOf (serve extractToken h r world).w = [.text "Invalid method for /tunnels"] ∧
      (serve extractToken h r world).calls = [.extractToken "access_token", .Authorized t] ∧
      ∀ d n k, Call.CreateTunnelForClient d n k ∉ (serve extractToken h r world).calls) ∧
    (r.Path = "/login" → r.Method ≠ "GET" → r.Method ≠ "POST" →
      statusCode (serve extractToken h r world).w = 405 ∧
      bodyOf (serve extractToken h r world).w = [.text "Invalid method for login"] ∧
      (serve extractToken h r world).calls = [] ∧
      cookiesOf (serve extractToken h r world).w = []) := by
  constructor
  · intro t hp hm hx ha
    rw [serve_tunnels_ok extractToken h r world t hp hx ha, handleTunnels_badMethod h r _ hm]
    simp [statusCode, bodyOf]
  · intro hp hg hq
    rw [serve_login extractToken h r world hp, handleLogin_badMethod h r _ hg hq]
    simp [Run.start, statusCode, bodyOf, cookiesOf]

/-- C15, worked: `GET /tunnels` with the accepted cookie, and `DELETE /login`. -/
theorem method_mismatch_is_405_witness :
    (statusCode (serve cookieToken demoHandler
        (domainRequest "GET" "/tunnels" [goodCookie]) demoWorld).w = 405 ∧
      bodyOf (serve cookieToken demoHandler
        (domainRequest "GET" "/tunnels" [goodCookie]) demoWorld).w =
        [.text "Invalid method for /tunnels"]) ∧
    (statusCode (serve cookieToken demoHandler
        (domainRequest "DELETE" "/login" []) demoWorld).w = 405 ∧
      (serve cookieToken demoHandler
        (domainRequest "DELETE" "/login" []) demoWorld).calls = []) :=
  have tunnels := (method_mismatch_is_405 cookieToken demoHandler
    (domainRequest "GET" "/tunnels" [goodCookie]) demoWorld).1 "good" rfl (by decide) rfl rfl
  have login := (method_mismatch_is_405 cookieToken demoHandler
    (domainRequest "DELETE" "/login" []) demoWorld).2 rfl (by decide) (by decide)
  ⟨⟨tunnels.1, tunnels.2.1⟩, login.1, login.2.2.1⟩

/-- C18: on `/tunnels` and `/delete-tunnel` the auth gate comes before the
method and the form: without a token the response is 401 with the plain-text
body "No token provided" (no template executed, `Authorized` not called), and
with a rejected token it is 403 "Not authorized"; the method and the form
values play no part, so such a request never gets 405 or 400. -/
theorem auth_gate_precedes_validation
    (extractToken : String → Request → Except String String)
    (h : WebUiHandler σ Tunnel Config) (r : Request) (world : σ)
    (hp : r.Path = "/tunnels" ∨ r.Path = "/delete-tunnel") :
    (∀ e, extractToken "access_token" r = .error e →
      statusCode (serve extractToken h r world).w = 401 ∧
      (serve extractToken h r world).w = [.WriteHeader 401, .Write "No token provided"] ∧
      bodyOf (serve extractToken h r world).w = [.text "No token provided"] ∧
      (serve extractToken h r world).calls = [.extractToken "access_token"] ∧
      ∀ t, Call.Authorized t ∉ (serve extractToken h r world).calls) ∧
    (∀ t, extractToken "access_token" r = .ok t → (h.auth.Authorized t world).1 = false →
      statusCode (serve extractToken h r world).w = 403 ∧
      (serve extractToken h r world).w = [.WriteHeader 403, .Write "Not authorized"] ∧
      (serve extractToken h r world).calls =
        [.extractToken "access_token", .Authorized t]) := by
  constructor
  · intro e hx
    rw [serve_noToken extractToken h r world e hp hx]
    simp [statusCode, bodyOf]
  · intro t hx ha
    rw [serve_forbidden extractToken h r world t (Or.inr hp) hx ha]
    simp [statusCode]

/-- C18, worked: `GET /tunnels` with an empty form and no cookie gets 401 (not
405 or 400), and `GET /delete-tunnel` with a stale cookie gets 403. -/
theorem auth_gate_precedes_validation_witness :
    statusCode (serve cookieToken demoHandler ⟨"GET", "/tunnels", [], [], []⟩ demoWorld).w =
      401 ∧
    bodyOf (serve cookieToken demoHandler ⟨"GET", "/tunnels", [], [], []⟩ demoWorld).w =
      [.text "No token provided"] ∧
    statusCode (serve cookieToken demoHandler
      ⟨"GET", "/delete-tunnel", [], [], [staleCookie]⟩ demoWorld).w = 403 :=
  have anon := (auth_gate_precedes_validation cookieToken demoHandler
    ⟨"GET", "/tunnels", [], [], []⟩ demoWorld (Or.inl rfl)).1
    "http: named cookie not present" rfl
  have stale := (auth_gate_precedes_validation cookieToken demoHandler
    ⟨"GET", "/delete-tunnel", [], [], [staleCookie]⟩ demoWorld (Or.inr rfl)).2
    "stale" rfl rfl
  ⟨anon.1, anon.2.2.1, stale.1⟩

/-! ## Cookies and panics, branch by branch -/

theorem cookiesOf_append (a b : List (WriterOp Tunnel)) :
    cookiesOf (a ++ b) = cookiesOf a ++ cookiesOf b := by
  induction a with
  | nil => rfl
  | cons x xs ih => cases x <;> simp [cookiesOf, ih]

theorem createForm_dichotomy (r : Request) :
    ((r.Form.index "domain").length ≠ 1 ∨ (r.Form.index "client-name").length ≠ 1 ∨
      (r.Form.index "client-port").length ≠ 1 ∨
      ∃ p e, r.Form.index "client-port" = [p] ∧ Atoi p = .error e) ∨
    ∃ d n p k, r.Form.index "domain" = [d] ∧ r.Form.index "client-name" = [n] ∧
      r.Form.index "client-port" = [p] ∧ Atoi p = .ok k := by
  by_cases hd : (r.Form.index "domain").length = 1
  · by_cases hn : (r.Form.index "client-name").length = 1
    · by_cases hq : (r.Form.index "client-port").length = 1
      · obtain ⟨d, hd⟩ := List.length_eq_one.mp hd
        obtain ⟨n, hn⟩ := List.length_eq_one.mp hn
        obtain ⟨p, hq⟩ := List.length_eq_one.mp hq
        cases hk : Atoi p with
        | error e => exact Or.inl (Or.inr (Or.inr (Or.inr ⟨p, e, hq, hk⟩)))
        | ok k => exact Or.inr ⟨d, n, p, k, hd, hn, hq, hk⟩
      · exact Or.inl (Or.inr (Or.inr (Or.inl hq)))
    · exact Or.inl (Or.inr (Or.inl hn))
  · exact Or.inl (Or.inl hd)

theorem handleCreateTunnel_quiet (h : WebUiHandler σ Tunnel Config) (r : Request)
    (s : Run σ Tunnel Config) :
    cookiesOf (handleCreateTunnel h r s).w = cookiesOf s.w ∧
      (handleCreateTunnel h r s).panicked = s.panicked := by
  rcases createForm_dichotomy r with hbad | ⟨d, n, p, k, hd, hn, hq, hk⟩
  · rw [handleCreateTunnel_invalid h r s hbad]
    simp [cookiesOf_append, cookiesOf]
  · rw [handleCreateTunnel_valid h r s d n p k hd hn hq hk]
    cases (h.tunMan.CreateTunnelForClient d n k s.world).1 <;>
      simp [cookiesOf_append, cookiesOf]

theorem handleTunnels_quiet (h : WebUiHandler σ Tunnel Config) (r : Request)
    (s : Run σ Tunnel Config) :
    cookiesOf (handleTunnels h r s).w = cookiesOf s.w ∧
      (handleTunnels h r s).panicked = s.panicked := by
  by_cases hm : r.Method = "POST"
  · simpa [handleTunnels, hm] using handleCreateTunnel_quiet h r s
  · rw [handleTunnels_badMethod h r s hm]
    simp [cookiesOf_append, cookiesOf]

theorem serve_quiet_off_login (ext : String → Request → Except String String)
    (h : WebUiHandler σ Tunnel Config) (r : Request) (world : σ)
    (h1 : r.Path ≠ "/login") :
    cookiesOf (serve ext h r world).w = [] ∧ (serve ext h r world).panicked = false := by
  by_cases h4 : r.Path = "/confirm-delete-tunnel"
  · by_cases hd : (r.Form.index "domain").length = 1
    · obtain ⟨d, hd⟩ := List.length_eq_one.mp hd
      simp [serve_confirm_ok ext h r world d h4 hd, cookiesOf]
    · simp [serve_confirm_bad ext h r world h4 hd, cookiesOf]
  by_cases h6 : r.Path = "/" ∨ r.Path = "/tunnels" ∨ r.Path = "/delete-tunnel"
  · cases hx : ext "access_token" r with
    | error e =>
      rcases h6 with h2 | h6
      · simp [serve_root_noToken ext h r world e h2 hx, cookiesOf]
      · simp [serve_noToken ext h r world e h6 hx, cookiesOf]
    | ok t =>
      cases ha : (h.auth.Authorized t world).1 with
      | false => simp [serve_forbidden ext h r world t h6 hx ha, cookiesOf]
      | true =>
        rcases h6 with h2 | h3 | h5
        · simp [serve_root_ok ext h r world t h2 hx ha, cookiesOf]
        · rw [serve_tunnels_ok ext h r world t h3 hx ha]
          simpa [cookiesOf] using handleTunnels_quiet h r
            ⟨[], [.extractToken "access_token", .Authorized t], [],
              (h.auth.Authorized t world).2, false⟩
        · by_cases hd : (r.Form.index "domain").length = 1
          · obtain ⟨d, hd⟩ := List.length_eq_one.mp hd
            simp [serve_delete_ok ext h r world t d h5 hx ha hd, cookiesOf]
          · simp [serve_delete_bad ext h r world t h5 hx ha hd, cookiesOf]
  · have h2 : r.Path ≠ "/" := fun e => h6 (Or.inl e)
    have h3 : r.Path ≠ "/tunnels" := fun e => h6 (Or.inr (Or.inl e))
    have h5 : r.Path ≠ "/delete-tunnel" := fun e => h6 (Or.inr (Or.inr e))
    simp [serve_other ext h r world h1 h2 h3 h4 h5, cookiesOf]

theorem handleLogin_get_emptyKey (h : WebUiHandler σ Tunnel Config) (r : Request)
    (s : Run σ Tunnel Config) (hm : r.Method = "GET") (hk : r.Query.find "key" = some []) :
    handleLogin h r s = s.panic := by
  simp [handleLogin, hm, hk]

theorem handleLogin_post_emptyEmail (h : WebUiHandler σ Tunnel Config) (r : Request)
    (s : Run σ Tunnel Config) (hm : r.Method = "POST")
    (he : r.Form.find "email" = some []) :
    handleLogin h r s = s.panic := by
  simp [handleLogin, hm, he]

theorem handleLogin_cookies (h : WebUiHandler σ Tunnel Config) (r : Request) (world : σ) :
    cookiesOf (handleLogin h r (Run.start world)).w ≠ [] ↔
      r.Method = "GET" ∧ ∃ K rest T, r.Query.find "key" = some (K :: rest) ∧
        (h.auth.Verify K world).1 = .ok T := by
  by_cases hm : r.Method = "GET"
  · cases hk : r.Query.find "key" with
    | none => simp [handleLogin_get_noKey h r _ hm hk, Run.start, cookiesOf]
    | some vs =>
      cases vs with
      | nil => simp [handleLogin_get_emptyKey h r _ hm hk, Run.start, Run.panic, cookiesOf]
      | cons K rest =>
        rw [handleLogin_get_key h r _ K rest hm hk]
        cases hv : (h.auth.Verify K world).1 <;>
          simp [Run.start, hv, hm, cookiesOf]
  · by_cases hq : r.Method = "POST"
    · cases he : r.Form.find "email" with
      | none => simp [handleLogin_post_noEmail h r _ hq he, Run.start, cookiesOf, hm]
      | some vs =>
        cases vs with
        | nil =>
          simp [handleLogin_post_emptyEmail h r _ hq he, Run.start, Run.panic, cookiesOf, hm]
        | cons e rest =>
          simp [handleLogin_post_email h r _ e rest hq he, Run.start, cookiesOf, hm]
    · simp [handleLogin_badMethod h r _ hm hq, Run.start, cookiesOf, hm]

theorem mem_of_find (v : Values) (k : String) (vs : List String)
    (hf : v.find k = some vs) : (k, vs) ∈ v := by
  induction v with
  | nil => simp [Values.find] at hf
  | cons kv rest ih =>
    obtain ⟨k0, v0⟩ := kv
    by_cases hk : k = k0
    · subst hk
      have : v0 = vs := by simpa [Values.find, List.lookup] using hf
      simp [this]
    · have hb : (k == k0) = false := by simpa using hk
      have hrest : Values.find rest k = some vs := by
        simpa [Values.find, List.lookup, hb] using hf
      exact List.mem_cons_of_mem _ (ih hrest)

theorem handleLogin_safe (h : WebUiHandler σ Tunnel Config) (r : Request) (world : σ)
    (hq : ∀ vs, r.Query.find "key" = some vs → vs ≠ [])
    (hf : ∀ vs, r.Form.find "email" = some vs → vs ≠ []) :
    (handleLogin h r (Run.start world)).panicked = false := by
  by_cases hm : r.Method = "GET"
  · cases hk : r.Query.find "key" with
    | none => simp [handleLogin_get_noKey h r _ hm hk, Run.start]
    | some vs =>
      cases vs with
      | nil => exact absurd rfl (hq [] hk)
      | cons K rest => simp [handleLogin_get_key h r _ K rest hm hk, Run.start]
  · by_cases hp : r.Method = "POST"
    · cases he : r.Form.find "email" with
      | none => simp [handleLogin_post_noEmail h r _ hp he, Run.start]
      | some vs =>
        cases vs with
        | nil => exact absurd rfl (hf [] he)
        | cons e rest => simp [handleLogin_post_email h r _ e rest hp he, Run.start]
    · simp [handleLogin_badMethod h r _ hm hp, Run.start]

/-- C11: the response sets a cookie if and only if the path is `/login`, the
method is GET, the query has `key` with a first value and `Verify` of that
value succeeds; no other path, method or branch sets any cookie. -/
theorem cookie_set_only_by_login_key
    (extractToken : String → Request → Except String String)
    (h : WebUiHandler σ Tunnel Config) (r : Request) (world : σ) :
    cookiesOf (serve extractToken h r world).w ≠ [] ↔
      (r.Path = "/login" ∧ r.Method = "GET" ∧
        ∃ K rest T, r.Query.find "key" = some (K :: rest) ∧
          (h.auth.Verify K world).1 = .ok T) := by
  by_cases hp : r.Path = "/login"
  · rw [serve_login extractToken h r world hp, handleLogin_cookies h r world]
    simp [hp]
  · simp [(serve_quiet_off_login extractToken h r world hp).1, hp]

/-- C19: no index expression `[0]` of the handler is out of range on any path
other than `/login` (each is guarded by a length-equals-1 test); on `/login`
none is out of range when every key present in the parsed query and form maps
to a non-empty list; and `key[0]` on GET, `toEmail[0]` on POST do go out of
range when the key is present with an empty list. -/
theorem index_zero_in_range
    (extractToken : String → Request → Except String String)
    (h : WebUiHandler σ Tunnel Config) (r : Request) (world : σ) :
    (r.Path ≠ "/login" → (serve extractToken h r world).panicked = false) ∧
    ((∀ k vs, (k, vs) ∈ r.Query → vs ≠ []) → (∀ k vs, (k, vs) ∈ r.Form → vs ≠ []) →
      (serve extractToken h r world).panicked = false) ∧
    (r.Path = "/login" → r.Method = "GET" → r.Query.find "key" = some [] →
      (serve extractToken h r world).panicked = true) ∧
    (r.Path = "/login" → r.Method = "POST" → r.Form.find "email" = some [] →
      (serve extractToken h r world).panicked = true) := by
  refine ⟨fun hp => (serve_quiet_off_login extractToken h r world hp).2, ?_, ?_, ?_⟩
  · intro hq hf
    by_cases hp : r.Path = "/login"
    · rw [serve_login extractToken h r world hp]
      exact handleLogin_safe h r world
        (fun vs hk => hq "key" vs (mem_of_find r.Query "key" vs hk))
        (fun vs he => hf "email" vs (mem_of_find r.Form "email" vs he))
    · exact (serve_quiet_off_login extractToken h r world hp).2
  · intro hp hm hk
    rw [serve_login extractToken h r world hp, handleLogin_get_emptyKey h r _ hm hk]
    simp [Run.panic]
  · intro hp hm he
    rw [serve_login extractToken h r world hp, handleLogin_post_emptyEmail h r _ hm he]
    simp [Run.panic]

/-- C19, worked: the create request indexes safely, `GET /login?key=k1` too,
and a query map binding `key` to the empty list makes `key[0]` panic. -/
theorem index_zero_in_range_witness :
    (serve cookieToken demoHandler
      (createRequest (createForm "8080") [goodCookie]) demoWorld).panicked = false ∧
    (serve cookieToken demoHandler (loginRequest [("key", ["k1"])]) demoWorld).panicked =
      false ∧
    (serve cookieToken demoHandler (loginRequest [("key", [])]) demoWorld).panicked = true ∧
    (serve cookieToken demoHandler (loginPost [("email", [])]) demoWorld).panicked = true :=
  ⟨(index_zero_in_range cookieToken demoHandler
      (createRequest (createForm "8080") [goodCookie]) demoWorld).1 (by decide),
   (index_zero_in_range cookieToken demoHandler
      (loginRequest [("key", ["k1"])]) demoWorld).2.1
      (by simp [loginRequest]) (by simp [loginRequest]),
   (index_zero_in_range cookieToken demoHandler
      (loginRequest [("key", [])]) demoWorld).2.2.1 rfl rfl rfl,
   (index_zero_in_range cookieToken demoHandler
      (loginPost [("email", [])]) demoWorld).2.2.2 rfl rfl rfl⟩

/-- C16, as stated, fails: `GET /delete-tunnel` without a `domain` value and
with the accepted cookie gets 400 only after `Authorized` has been called, and
the same request without a cookie gets 401, not 400. -/
theorem malformed_input_counterexample :
    ((⟨"GET", "/delete-tunnel", [], [], [goodCookie]⟩ : Request).Form.index "domain" = [] ∧
      statusCode (serve cookieToken demoHandler
        ⟨"GET", "/delete-tunnel", [], [], [goodCookie]⟩ demoWorld).w = 400 ∧
      Call.Authorized "good" ∈ (serve cookieToken demoHandler
        ⟨"GET", "/delete-tunnel", [], [], [goodCookie]⟩ demoWorld).calls) ∧
    ((⟨"GET", "/delete-tunnel", [], [], []⟩ : Request).Form.index "domain" = [] ∧
      statusCode (serve cookieToken demoHandler
        ⟨"GET", "/delete-tunnel", [], [], []⟩ demoWorld).w = 401) := by
  decide

/-- C16, amended: missing or malformed client input gets status 400 with a
plain-text body. On `/confirm-delete-tunnel`, on GET `/login` without `key`
and on POST `/login` without `email` no call is made at all. On
`/delete-tunnel` and on POST `/tunnels` the form is read only after the auth
gate, so for a request whose token `Authorized` accepts the calls are exactly
`extractToken` and that `Authorized`: no `Verify`, `Login`, `GetTunnels`,
`CreateTunnelForClient` or `DeleteTunnel`. -/
theorem malformed_input_is_400
    (extractToken : String → Request → Except String String)
    (h : WebUiHandler σ Tunnel Config) (r : Request) (world : σ) :
    (r.Path = "/confirm-delete-tunnel" → (r.Form.index "domain").length ≠ 1 →
      statusCode (serve extractToken h r world).w = 400 ∧
      bodyOf (serve extractToken h r world).w = [.text "Invalid domain parameter"] ∧
      (serve extractToken h r world).calls = []) ∧
    (r.Path = "/login" → r.Method = "GET" → r.Query.find "key" = none →
      statusCode (serve extractToken h r world).w = 400 ∧
      bodyOf (serve extractToken h r world).w = [.text "Must provide key for verification"] ∧
      (serve extractToken h r world).calls = []) ∧
    (r.Path = "/login" → r.Method = "POST" → r.Form.find "email" = none →
      statusCode (serve extractToken h r world).w = 400 ∧
      bodyOf (serve extractToken h r world).w = [.text "Email required for login"] ∧
      (serve extractToken h r world).calls = []) ∧
    (∀ t, r.Path = "/delete-tunnel" → extractToken "access_token" r = .ok t →
      (h.auth.Authorized t world).1 = true → (r.Form.index "domain").length ≠ 1 →
      statusCode (serve extractToken h r world).w = 400 ∧
      bodyOf (serve extractToken h r world).w = [.text "Invalid domain parameter"] ∧
      (serve extractToken h r world).calls =
        [.extractToken "access_token", .Authorized t]) ∧
    (∀ t, r.Path = "/tunnels" → r.Method = "POST" →
      extractToken "access_token" r = .ok t → (h.auth.Authorized t world).1 = true →
      ((r.Form.index "domain").length ≠ 1 ∨ (r.Form.index "client-name").length ≠ 1 ∨
        (r.Form.index "client-port").length ≠ 1 ∨
        ∃ p e, r.Form.index "client-port" = [p] ∧ Atoi p = .error e) →
      statusCode (serve extractToken h r world).w = 400 ∧
      (∃ msg, bodyOf (serve extractToken h r world).w = [.text msg]) ∧
      (serve extractToken h r world).calls =
        [.extractToken "access_token", .Authorized t]) := by
  refine ⟨?_, ?_, ?_, ?_, ?_⟩
  · intro hp hd
    rw [serve_confirm_bad extractToken h r world hp hd]
    simp [statusCode, bodyOf]
  · intro hp hm hk
    rw [serve_login extractToken h r world hp, handleLogin_get_noKey h r _ hm hk]
    simp [Run.start, statusCode, bodyOf]
  · intro hp hm he
    rw [serve_login extractToken h r world hp, handleLogin_post_noEmail h r _ hm he]
    simp [Run.start, statusCode, bodyOf]
  · intro t hp hx ha hd
    rw [serve_delete_bad extractToken h r world t hp hx ha hd]
    simp [statusCode, bodyOf]
  · intro t hp hm hx ha hbad
    rw [serve_tunnels_ok extractToken h r world t hp hx ha]
    simp only [handleTunnels, hm, if_true]
    rw [handleCreateTunnel_invalid h r _ hbad]
    simp [statusCode, bodyOf]

/-- C16 amended, worked: the prompt without `domain` calls nothing; the
authorized delete without `domain` calls only `extractToken` and `Authorized`. -/
theorem malformed_input_is_400_witness :
    (statusCode (serve cookieToken demoHandler
        ⟨"GET", "/confirm-delete-tunnel", [], [], []⟩ demoWorld).w = 400 ∧
      (serve cookieToken demoHandler
        ⟨"GET", "/confirm-delete-tunnel", [], [], []⟩ demoWorld).calls = []) ∧
    (statusCode (serve cookieToken demoHandler
        ⟨"GET", "/delete-tunnel", [], [], [goodCookie]⟩ demoWorld).w = 400 ∧
      (serve cookieToken demoHandler
        ⟨"GET", "/delete-tunnel", [], [], [goodCookie]⟩ demoWorld).calls =
        [.extractToken "access_token", .Authorized "good"]) ∧
    statusCode (serve cookieToken demoHandler
      (createRequest (createForm "notanumber") [goodCookie]) demoWorld).w = 400 :=
  have prompt := (malformed_input_is_400 cookieToken demoHandler
    ⟨"GET", "/confirm-delete-tunnel", [], [], []⟩ demoWorld).1 rfl (by decide)
  have commit := (malformed_input_is_400 cookieToken demoHandler
    ⟨"GET", "/delete-tunnel", [], [], [goodCookie]⟩ demoWorld).2.2.2.1
    "good" rfl rfl rfl (by decide)
  have create := (malformed_input_is_400 cookieToken demoHandler
    (createRequest (createForm "notanumber") [goodCookie]) demoWorld).2.2.2.2
    "good" rfl rfl rfl rfl
    (Or.inr (Or.inr (Or.inr ⟨"notanumber", "invalid syntax", rfl, rfl⟩)))
  ⟨⟨prompt.1, prompt.2.2⟩, ⟨commit.1, commit.2.2⟩, create.1⟩

/-- C17, at `d = "a+b"` and `d = "a&b"`: the prompt for `a+b` renders the
ConfirmUrl `/delete-tunnel?domain=a+b`; the request for that URL carries the
single `domain` value `a b`, so `DeleteTunnel("a b")` is invoked and the tunnel
`a b` is removed while `a+b` stays. The ConfirmUrl for `a&b` carries the single
value `a`. -/
theorem confirm_url_round_trip_fails :
    (serve cookieToken demoHandler
        ⟨"GET", "/confirm-delete-tunnel", [], [("domain", ["a+b"])], []⟩
        [("a b", 1), ("a+b", 2)]).w =
      [.Execute ⟨"confirmhtml", "confirm"⟩ (.confirm
        ⟨"body", "Are you sure you want to delete a+b?",
         "/delete-tunnel?domain=a+b", "/"⟩)] ∧
    (requestOfTarget "GET" "/delete-tunnel?domain=a+b" [goodCookie]).Path = "/delete-tunnel" ∧
    (requestOfTarget "GET" "/delete-tunnel?domain=a+b" [goodCookie]).Form.index "domain" =
      ["a b"] ∧
    (serve cookieToken demoHandler
        (requestOfTarget "GET" "/delete-tunnel?domain=a+b" [goodCookie])
        [("a b", 1), ("a+b", 2)]).calls =
      [.extractToken "access_token", .Authorized "good", .DeleteTunnel "a b"] ∧
    (serve cookieToken demoHandler
        (requestOfTarget "GET" "/delete-tunnel?domain=a+b" [goodCookie])
        [("a b", 1), ("a+b", 2)]).world = [("a+b", 2)] ∧
    (requestOfTarget "GET" "/delete-tunnel?domain=a&b" [goodCookie]).Form.index "domain" =
      ["a"] ∧
    (serve cookieToken demoHandler
        (requestOfTarget "GET" "/delete-tunnel?domain=a&b" [goodCookie])
        [("a", 1), ("a&b", 2)]).calls =
      [.extractToken "access_token", .Authorized "good", .DeleteTunnel "a"] :=
  ⟨rfl, rfl, rfl, rfl, rfl, rfl, rfl⟩

/-! ## Where the confirm/commit round trip does hold

For a domain without `&`, `;`, `%` and `+` the ConfirmUrl carries the domain
back unchanged. -/

theorem splitAmp_of_noAmp (l : List Char) (hl : ∀ c ∈ l, c ≠ '&') : splitAmp l = [l] := by
  induction l with
  | nil => rfl
  | cons c rest ih =>
    have hc : c ≠ '&' := hl c (List.mem_cons_self _ _)
    have hrest := ih (fun x hx => hl x (List.mem_cons_of_mem _ hx))
    simp [splitAmp, hc, hrest]

theorem QueryUnescape_of_plain (l : List Char) (hl : ∀ c ∈ l, c ≠ '%' ∧ c ≠ '+') :
    QueryUnescape l = some l := by
  induction l with
  | nil => rfl
  | cons c rest ih =>
    have hc := hl c (List.mem_cons_self _ _)
    have hrest := ih (fun x hx => hl x (List.mem_cons_of_mem _ hx))
    unfold QueryUnescape
    simp only [if_neg hc.1, if_neg hc.2, hrest]
    rfl

theorem confirm_url_round_trip_plain (method d : String) (cookies : List Cookie)
    (hd : ∀ c ∈ d.data, c ≠ '&' ∧ c ≠ ';' ∧ c ≠ '%' ∧ c ≠ '+') :
    (requestOfTarget method ("/delete-tunnel?domain=" ++ d) cookies).Path = "/delete-tunnel" ∧
    (requestOfTarget method ("/delete-tunnel?domain=" ++ d) cookies).Form.index "domain" =
      [d] := by
  have hdata : ("/delete-tunnel?domain=" ++ d).data =
      '/' :: 'd' :: 'e' :: 'l' :: 'e' :: 't' :: 'e' :: '-' :: 't' :: 'u' :: 'n' :: 'n' ::
        'e' :: 'l' :: '?' :: 'd' :: 'o' :: 'm' :: 'a' :: 'i' :: 'n' :: '=' :: d.data := by
    rw [String.data_append]; rfl
  have hcut : cut '?' ("/delete-tunnel?domain=" ++ d).data =
      ("/delete-tunnel".data, 'd' :: 'o' :: 'm' :: 'a' :: 'i' :: 'n' :: '=' :: d.data) := by
    rw [hdata]; simp [cut]
  have hno : ∀ c ∈ ('d' :: 'o' :: 'm' :: 'a' :: 'i' :: 'n' :: '=' :: d.data), c ≠ '&' := by
    intro c hc
    simp only [List.mem_cons] at hc
    rcases hc with h | h | h | h | h | h | h | h
    any_goals (subst h; decide)
    exact (hd c h).1
  have hsemi : ';' ∉ ('d' :: 'o' :: 'm' :: 'a' :: 'i' :: 'n' :: '=' :: d.data) := by
    intro hc
    simp only [List.mem_cons] at hc
    rcases hc with h | h | h | h | h | h | h | h
    all_goals first | exact absurd h (by decide) | exact (hd _ h).2.1 rfl
  have hval : QueryUnescape d.data = some d.data :=
    QueryUnescape_of_plain d.data (fun c hc => ⟨(hd c hc).2.2.1, (hd c hc).2.2.2⟩)
  have hkey : QueryUnescape ['d', 'o', 'm', 'a', 'i', 'n'] = some ['d', 'o', 'm', 'a', 'i', 'n'] := by
    decide
  have hparse : ParseQuery (String.mk ('d' :: 'o' :: 'm' :: 'a' :: 'i' :: 'n' :: '=' :: d.data)) =
      [("domain", [d])] := by
    simp only [ParseQuery, splitAmp_of_noAmp _ hno, List.foldl, parsePair, hsemi, if_false]
    simp [cut, hkey, hval, addValue]
  constructor
  · simp only [requestOfTarget, hcut]
  · simp only [requestOfTarget, hcut, hparse]
    rfl

theorem confirm_url_round_trip_plain_delete
    (ext : String → Request → Except String String)
    (h : WebUiHandler σ Tunnel Config) (world : σ) (method d t : String)
    (cookies : List Cookie)
    (hd : ∀ c ∈ d.data, c ≠ '&' ∧ c ≠ ';' ∧ c ≠ '%' ∧ c ≠ '+')
    (hx : ext "access_token"
      (requestOfTarget method ("/delete-tunnel?domain=" ++ d) cookies) = .ok t)
    (ha : (h.auth.Authorized t world).1 = true) :
    (serve ext h (requestOfTarget method ("/delete-tunnel?domain=" ++ d) cookies)
      world).calls = [.extractToken "access_token", .Authorized t, .DeleteTunnel d] := by
  have hplain := confirm_url_round_trip_plain method d cookies hd
  rw [serve_delete_ok ext h _ world t d hplain.1 hx ha hplain.2]

end BoringProxy
